import Mathlib

/-!
Verification development for the Kodi Wayland windowing backend.

This file contains a shallow embedding of the backend code
(guilib/Geometry.h, windowing/wayland/WindowDecorator.cpp,
Connection.cpp, SeatInputProcessor.cpp, Output.cpp,
WinSystemWayland.cpp, WinSystemWaylandEGLContext.cpp) together with
theorems about the embedded definitions.

Conventions used throughout:
- C++ machine integers are modelled as Int or Nat; overflow is not
  modelled where value ranges make wraparound impossible, and explicit
  mod operations appear where the code performs narrowing casts.
- C++ functions that can throw are modelled as Except String.
- float and double values are idealized as rationals.
-/

namespace XbmcWayland

/-- Decidable equality for Except values, needed to evaluate theorems about
fallible computations on concrete inputs. -/
instance instDecEqExcept {e a : Type} [DecidableEq e] [DecidableEq a] :
    DecidableEq (Except e a) := fun x y =>
  match x, y with
  | Except.ok v, Except.ok w =>
    if h : v = w then isTrue (by rw [h]) else
      isFalse (by intro hc; injection hc; contradiction)
  | Except.error v, Except.error w =>
    if h : v = w then isTrue (by rw [h]) else
      isFalse (by intro hc; injection hc; contradiction)
  | Except.ok _, Except.error _ => isFalse (fun hc => Except.noConfusion hc)
  | Except.error _, Except.ok _ => isFalse (fun hc => Except.noConfusion hc)

/-- Size with int components, from CSizeGen of guilib/Geometry.h.
The private CheckSet helper of CSizeGen throws std::out_of_range for a
negative width or height, so every constructing operation is modelled as
an Except-returning function. -/
structure CSizeInt where
  w : Int
  h : Int
deriving DecidableEq

/-- CSizeGen::CheckSet: rejects negative width or height, otherwise stores both. -/
def checkSet (w h : Int) : Except String CSizeInt :=
  if w < 0 then Except.error ("Size may not have negative width")
  else if h < 0 then Except.error ("Size may not have negative height")
  else Except.ok (CSizeInt.mk w h)

/-- CSizeGen::IsZero: both components equal zero. -/
def CSizeInt.isZero (s : CSizeInt) : Bool :=
  s.w == 0 && s.h == 0

/-- CSizeGen operator+: componentwise sum, constructing (hence checking) the result. -/
def sizeAdd (a b : CSizeInt) : Except String CSizeInt :=
  checkSet (a.w + b.w) (a.h + b.h)

/-- CSizeGen operator-: componentwise difference, constructing (hence checking) the result. -/
def sizeSub (a b : CSizeInt) : Except String CSizeInt :=
  checkSet (a.w - b.w) (a.h - b.h)

/-- CSizeGen operator* with a scalar factor, constructing (hence checking) the result. -/
def sizeMulScalar (a : CSizeInt) (factor : Int) : Except String CSizeInt :=
  checkSet (a.w * factor) (a.h * factor)

/-- IShellSurface::StateBitset: bitset over the State enum
(STATE_MAXIMIZED, STATE_FULLSCREEN, STATE_RESIZING, STATE_ACTIVATED). -/
structure ShellSurfaceState where
  maximized : Bool
  fullscreen : Bool
  resizing : Bool
  activated : Bool
deriving DecidableEq

/-- Width of the border around the whole window (WindowDecorator.cpp). -/
def BORDER_WIDTH : Int := 5

/-- Height of the top bar (WindowDecorator.cpp). -/
def TOP_BAR_HEIGHT : Int := 33

/-- Full size of decorations to be added to the main surface size
(DecorationSize of WindowDecorator.cpp). -/
def DecorationSize : CSizeInt :=
  CSizeInt.mk (2 * BORDER_WIDTH) (2 * BORDER_WIDTH + TOP_BAR_HEIGHT)

/-- CWindowDecorator::StateHasWindowDecorations: no decorations possible if
the subcompositor is not available, and none in fullscreen state.
The m_subcompositor member is passed explicitly as subcompositorBound. -/
def StateHasWindowDecorations (subcompositorBound : Bool)
    (state : ShellSurfaceState) : Bool :=
  subcompositorBound && !state.fullscreen

/-- CWindowDecorator::CalculateMainSurfaceSize: subtract the decoration size
when decorations are active for the given state, otherwise pass through. -/
def CalculateMainSurfaceSize (subcompositorBound : Bool) (size : CSizeInt)
    (state : ShellSurfaceState) : Except String CSizeInt :=
  if StateHasWindowDecorations subcompositorBound state then
    sizeSub size DecorationSize
  else
    Except.ok size

/-- CWindowDecorator::CalculateFullSurfaceSize: add the decoration size
when decorations are active for the given state, otherwise pass through. -/
def CalculateFullSurfaceSize (subcompositorBound : Bool) (size : CSizeInt)
    (state : ShellSurfaceState) : Except String CSizeInt :=
  if StateHasWindowDecorations subcompositorBound state then
    sizeAdd size DecorationSize
  else
    Except.ok size

/-- Decoration-activity condition in the exact form the specification states it:
richer shell protocol in use, subsurface compositing available, and the
fullscreen bit not set. Kept separate from StateHasWindowDecorations so the
two conditions can be compared. -/
def specDecorationsActive (richerShellInUse subcompositorBound : Bool)
    (state : ShellSurfaceState) : Bool :=
  richerShellInUse && subcompositorBound && !state.fullscreen

/-- Composition of the two decoration size conversions, main-surface size
first, as used in the round-trip property. -/
def decorationRoundTrip (subcompositorBound : Bool) (size : CSizeInt)
    (state : ShellSurfaceState) : Except String CSizeInt :=
  match CalculateMainSurfaceSize subcompositorBound size state with
  | Except.error e => Except.error e
  | Except.ok mainSize => CalculateFullSurfaceSize subcompositorBound mainSize state

/-- Returns true exactly for successful Except results. -/
def exceptIsOk {e a : Type} : Except e a → Bool
  | Except.ok _ => true
  | Except.error _ => false

/-- Bind helper from the anonymous namespace of Connection.cpp: reject an
offered version below the declared minimum, otherwise bind the minimum of the
declared maximum and the offered version. -/
def Bind (interface : String) (minVersion maxVersion offeredVersion : Nat) :
    Except String Nat :=
  if offeredVersion < minVersion then
    Except.error ("Wayland server has version " ++ toString offeredVersion ++
      " of protocol " ++ interface ++ ", but we need at least version " ++
      toString minVersion)
  else
    Except.ok (min maxVersion offeredVersion)

/-- InterfaceBindInfo from Connection.h, without the target proxy reference:
minimum acceptable version, maximum bind version, required flag. -/
structure InterfaceBindInfo where
  minVersion : Nat
  maxVersion : Nat
  required : Bool
deriving DecidableEq

/-- CConnection::CheckRequiredGlobals: throw for the first required entry whose
target proxy is still unbound. Entries carry the bind status of their target
as a Bool (wayland proxy operator bool). -/
def CheckRequiredGlobals : List (String × InterfaceBindInfo × Bool) → Except String Unit
  | [] => Except.ok ()
  | (name, info, bound) :: rest =>
    if info.required && !bound then
      Except.error ("Missing required " ++ name ++ " protocol")
    else
      CheckRequiredGlobals rest

/-- The m_binds table built by CConnection::BindSingletons, with the bind
status of each target proxy as a parameter. Entries appear in std::map
iteration order, which is lexicographic by interface name. -/
def mBinds (c d s sh sub p i x : Bool) : List (String × InterfaceBindInfo × Bool) :=
  [("wl_compositor", InterfaceBindInfo.mk 1 4 true, c),
   ("wl_data_device_manager", InterfaceBindInfo.mk 1 3 false, d),
   ("wl_shell", InterfaceBindInfo.mk 1 1 true, s),
   ("wl_shm", InterfaceBindInfo.mk 1 1 true, sh),
   ("wl_subcompositor", InterfaceBindInfo.mk 1 1 false, sub),
   ("wp_presentation", InterfaceBindInfo.mk 1 1 false, p),
   ("zwp_idle_inhibit_manager_v1", InterfaceBindInfo.mk 1 1 false, i),
   ("zxdg_shell_v6", InterfaceBindInfo.mk 1 1 false, x)]

/-- COutput::GetPixelRatioForMode from Output.cpp, float arithmetic idealized
over the rationals: 1.0 when any physical or mode dimension is zero, otherwise
(physicalWidth / modeWidth) / (physicalHeight / modeHeight). -/
def GetPixelRatioForMode (physicalWidth physicalHeight modeWidth modeHeight : Int) : ℚ :=
  if physicalWidth = 0 ∨ physicalHeight = 0 ∨ modeWidth = 0 ∨ modeHeight = 0 then 1
  else
    ((physicalWidth : ℚ) / (modeWidth : ℚ)) / ((physicalHeight : ℚ) / (modeHeight : ℚ))

/-- C2 counterexample: with the subcompositor bound but the richer shell
protocol NOT in use (legacy wl_shell fallback) and a windowed state, the code
still subtracts the decoration size, contradicting the claim that the content
size equals the configured size unless the richer protocol is in use.
Additionally, for a configured size smaller than the decoration size the
subtraction fails the size type check instead of returning any size. -/
theorem calculateMainSurfaceSize_richer_protocol_counterexample :
    specDecorationsActive false true (ShellSurfaceState.mk false false false true) = false
    ∧ CalculateMainSurfaceSize true (CSizeInt.mk 800 600)
        (ShellSurfaceState.mk false false false true) = Except.ok (CSizeInt.mk 790 557)
    ∧ CSizeInt.mk 790 557 ≠ CSizeInt.mk 800 600
    ∧ CalculateMainSurfaceSize true (CSizeInt.mk 5 5)
        (ShellSurfaceState.mk false false false true) =
        Except.error ("Size may not have negative width") := by
  decide

/-- C2 (amended): for every configured size at least as large as the
decoration size, the content size equals the configured size minus the
decoration size if and only if the subcompositor is available and the
fullscreen bit is not set (the richer-shell-protocol condition is not
consulted); otherwise the content size equals the configured size. -/
theorem calculateMainSurfaceSize_decoration_spec
    (subcompositorBound : Bool) (size : CSizeInt) (state : ShellSurfaceState)
    (hw : DecorationSize.w ≤ size.w) (hh : DecorationSize.h ≤ size.h) :
    (CalculateMainSurfaceSize subcompositorBound size state =
        Except.ok (CSizeInt.mk (size.w - DecorationSize.w) (size.h - DecorationSize.h))
      ↔ StateHasWindowDecorations subcompositorBound state = true)
    ∧ (StateHasWindowDecorations subcompositorBound state = false →
        CalculateMainSurfaceSize subcompositorBound size state = Except.ok size) := by
  have hdw : DecorationSize.w = 10 := rfl
  have hdh : DecorationSize.h = 43 := rfl
  simp only [hdw, hdh] at hw hh ⊢
  cases hdec : StateHasWindowDecorations subcompositorBound state
  · constructor
    · simp only [CalculateMainSurfaceSize, hdec, Bool.false_eq_true, if_false]
      constructor
      · intro h
        injection h with h
        cases size
        simp only [CSizeInt.mk.injEq] at h
        omega
      · intro h
        cases h
    · intro _
      simp [CalculateMainSurfaceSize, hdec]
  · constructor
    · simp only [CalculateMainSurfaceSize, hdec, if_true, sizeSub, checkSet, hdw, hdh]
      rw [if_neg (by omega), if_neg (by omega)]
      simp
    · intro h
      cases h

/-- Witness for calculateMainSurfaceSize_decoration_spec at size 800 by 600,
subcompositor bound, activated windowed state. -/
theorem calculateMainSurfaceSize_decoration_spec_witness :
    (CalculateMainSurfaceSize true (CSizeInt.mk 800 600)
        (ShellSurfaceState.mk false false false true) =
        Except.ok (CSizeInt.mk ((CSizeInt.mk 800 600).w - DecorationSize.w)
          ((CSizeInt.mk 800 600).h - DecorationSize.h))
      ↔ StateHasWindowDecorations true (ShellSurfaceState.mk false false false true) = true)
    ∧ (StateHasWindowDecorations true (ShellSurfaceState.mk false false false true) = false →
        CalculateMainSurfaceSize true (CSizeInt.mk 800 600)
          (ShellSurfaceState.mk false false false true) =
          Except.ok (CSizeInt.mk 800 600)) :=
  calculateMainSurfaceSize_decoration_spec true (CSizeInt.mk 800 600)
    (ShellSurfaceState.mk false false false true) (by decide) (by decide)

/-- C3 counterexample: at size 5 by 5 in a decorations-active state the inner
size subtraction fails the nonnegativity check of the size constructor, so the
round trip reports an error rather than returning the original size. -/
theorem decorationRoundTrip_small_size_counterexample :
    decorationRoundTrip true (CSizeInt.mk 5 5) (ShellSurfaceState.mk false false false true) ≠
      Except.ok (CSizeInt.mk 5 5) := by
  decide

/-- C3 (amended): whenever decorations are inactive for the state, or the size
is at least the decoration size (so the inner subtraction passes the
nonnegativity check of the size constructor), composing the two decoration
size conversions with the same state is the identity. -/
theorem decorationRoundTrip_identity (subcompositorBound : Bool) (size : CSizeInt)
    (state : ShellSurfaceState)
    (h : StateHasWindowDecorations subcompositorBound state = true →
      DecorationSize.w ≤ size.w ∧ DecorationSize.h ≤ size.h) :
    decorationRoundTrip subcompositorBound size state = Except.ok size := by
  cases hdec : StateHasWindowDecorations subcompositorBound state
  · simp [decorationRoundTrip, CalculateMainSurfaceSize, CalculateFullSurfaceSize, hdec]
  · obtain ⟨hw, hh⟩ := h hdec
    simp only [DecorationSize, BORDER_WIDTH, TOP_BAR_HEIGHT] at hw hh
    simp only [decorationRoundTrip, CalculateMainSurfaceSize, CalculateFullSurfaceSize,
      hdec, if_true, sizeSub, sizeAdd, checkSet, DecorationSize, BORDER_WIDTH,
      TOP_BAR_HEIGHT]
    rw [if_neg (by omega), if_neg (by omega)]
    simp only []
    rw [if_neg (by omega), if_neg (by omega)]
    cases size
    simp only [Except.ok.injEq, CSizeInt.mk.injEq]
    omega

/-- Witness for decorationRoundTrip_identity at size 800 by 600 with the
subcompositor bound and an activated windowed state. -/
theorem decorationRoundTrip_identity_witness :
    decorationRoundTrip true (CSizeInt.mk 800 600)
      (ShellSurfaceState.mk false false false true) =
      Except.ok (CSizeInt.mk 800 600) :=
  decorationRoundTrip_identity true (CSizeInt.mk 800 600)
    (ShellSurfaceState.mk false false false true) (by decide)

/-- C4: for every global-interface bind, an offered version below the declared
minimum fails with a protocol-version error, and otherwise the bound version
is exactly the minimum of the declared maximum and the offered version. -/
theorem bind_version_negotiation (interface : String)
    (minVersion maxVersion offeredVersion : Nat) :
    (offeredVersion < minVersion →
      ∃ e, Bind interface minVersion maxVersion offeredVersion = Except.error e)
    ∧ (minVersion ≤ offeredVersion →
      Bind interface minVersion maxVersion offeredVersion =
        Except.ok (min maxVersion offeredVersion)) := by
  constructor
  · intro h
    exact ⟨_, by unfold Bind; rw [if_pos h]⟩
  · intro h
    simp [Bind, Nat.not_lt.mpr h]

/-- Witness for bind_version_negotiation: version 1 offered for an interface
requiring at least 2 fails; version 7 offered with maximum 4 binds version 4. -/
theorem bind_version_negotiation_witness :
    (∃ e, Bind "wl_output" 2 3 1 = Except.error e)
    ∧ Bind "wl_compositor" 1 4 7 = Except.ok (min 4 7) :=
  ⟨(bind_version_negotiation "wl_output" 2 3 1).1 (by decide),
   (bind_version_negotiation "wl_compositor" 1 4 7).2 (by decide)⟩

/-- C5: for every bind status of the eight singleton interfaces, the
required-globals check succeeds exactly when the compositor, shell and shm
interfaces (the required ones) are bound, and it fails exactly when some
entry registered as required is unbound; the five non-required interfaces
never cause the failure. -/
theorem checkRequiredGlobals_required_iff (c d s sh sub p i x : Bool) :
    ((exceptIsOk (CheckRequiredGlobals (mBinds c d s sh sub p i x))) = (c && s && sh))
    ∧ ((exceptIsOk (CheckRequiredGlobals (mBinds c d s sh sub p i x))) = false ↔
        ∃ entry ∈ mBinds c d s sh sub p i x,
          entry.2.1.required = true ∧ entry.2.2 = false) := by
  cases c <;> cases d <;> cases s <;> cases sh <;> cases sub <;> cases p <;>
    cases i <;> cases x <;> decide

/-- C9 counterexample: for physical size 509 by 286 mm and mode 1920 by 1080,
the computed pixel ratio is 4581/4576, roughly 1.0011, which is not
approximately 0.9945 as the claim states (not even within 0.005). -/
theorem getPixelRatioForMode_example_counterexample :
    GetPixelRatioForMode 509 286 1920 1080 = 4581 / 4576
    ∧ ¬ |(4581 / 4576 : ℚ) - 9945 / 10000| < 5 / 1000 := by
  constructor
  · norm_num [GetPixelRatioForMode]
  · norm_num [abs]

/-- C9 (amended): the pixel ratio is (physicalWidth/modeWidth) divided by
(physicalHeight/modeHeight), any zero dimension yields exactly 1.0, and the
example with physical size 509 by 286 mm and mode 1920 by 1080 yields
4581/4576, approximately 1.0011 (the arithmetic is idealized over the
rationals; the code computes in single precision floats). -/
theorem getPixelRatioForMode_spec (pw ph mw mh : Int) :
    ((pw = 0 ∨ ph = 0 ∨ mw = 0 ∨ mh = 0) → GetPixelRatioForMode pw ph mw mh = 1)
    ∧ (pw ≠ 0 → ph ≠ 0 → mw ≠ 0 → mh ≠ 0 →
      GetPixelRatioForMode pw ph mw mh = ((pw : ℚ) / (mw : ℚ)) / ((ph : ℚ) / (mh : ℚ)))
    ∧ GetPixelRatioForMode 509 286 1920 1080 = 4581 / 4576
    ∧ |GetPixelRatioForMode 509 286 1920 1080 - 10011 / 10000| < 1 / 10000 := by
  refine ⟨fun h => by simp [GetPixelRatioForMode, h], fun h1 h2 h3 h4 => ?_, ?_, ?_⟩
  · simp [GetPixelRatioForMode, h1, h2, h3, h4]
  · norm_num [GetPixelRatioForMode]
  · norm_num [GetPixelRatioForMode, abs]

/-- Witness for getPixelRatioForMode_spec: a zero physical width yields
exactly 1, and the nonzero example evaluates to the quotient formula. -/
theorem getPixelRatioForMode_spec_witness :
    GetPixelRatioForMode 0 286 1920 1080 = 1
    ∧ GetPixelRatioForMode 509 286 1920 1080 =
      ((509 : ℚ) / (1920 : ℚ)) / ((286 : ℚ) / (1080 : ℚ)) :=
  ⟨(getPixelRatioForMode_spec 0 286 1920 1080).1 (Or.inl rfl),
   (getPixelRatioForMode_spec 509 286 1920 1080).2.1 (by decide) (by decide)
     (by decide) (by decide)⟩

/-- The three seat sub-processor kinds of CSeatInputProcessor. -/
inductive SubProcessor
  | pointer
  | keyboard
  | touch
deriving DecidableEq

/-- Observable effect of the HandleCapabilityChange helper: construct and wire
a sub-processor instance, or release it. -/
inductive CapAction
  | attach (which : SubProcessor)
  | detach (which : SubProcessor)
deriving DecidableEq

/-- wl_seat capability bitmask (wayland::seat_capability). -/
structure SeatCapabilities where
  pointer : Bool
  keyboard : Bool
  touch : Bool
deriving DecidableEq

/-- Attachment state of the three sub-processor protocol instances
(m_pointer, m_keyboard, m_touch proxy_has_object). -/
structure SubProcessorState where
  pointer : Bool
  keyboard : Bool
  touch : Bool
deriving DecidableEq

/-- HandleCapabilityChange helper from SeatInputProcessor.cpp: when the
instance presence differs from the capability bit, create the instance (and
run the new-capability hook) or release it; otherwise do nothing. -/
def HandleCapabilityChange (hasInstance capBit : Bool) (which : SubProcessor) :
    Bool × List CapAction :=
  if hasInstance ≠ capBit then
    if capBit then (true, [CapAction.attach which])
    else (false, [CapAction.detach which])
  else
    (hasInstance, [])

/-- CSeatInputProcessor::HandleOnCapabilities: reconcile pointer, keyboard and
touch instances, in that order, against the announced capability bitmask. -/
def HandleOnCapabilities (st : SubProcessorState) (caps : SeatCapabilities) :
    SubProcessorState × List CapAction :=
  let rp := HandleCapabilityChange st.pointer caps.pointer SubProcessor.pointer
  let rk := HandleCapabilityChange st.keyboard caps.keyboard SubProcessor.keyboard
  let rt := HandleCapabilityChange st.touch caps.touch SubProcessor.touch
  (SubProcessorState.mk rp.1 rk.1 rt.1, rp.2 ++ rk.2 ++ rt.2)

/-- Attachment state matching a capability bitmask exactly. -/
def capsState (caps : SeatCapabilities) : SubProcessorState :=
  SubProcessorState.mk caps.pointer caps.keyboard caps.touch

/-- Process a sequence of capability announcements, accumulating all
attach and detach actions. -/
def processCapabilitySeq (st : SubProcessorState) :
    List SeatCapabilities → SubProcessorState × List CapAction
  | [] => (st, [])
  | caps :: rest =>
    let r := HandleOnCapabilities st caps
    let rs := processCapabilitySeq r.1 rest
    (rs.1, r.2 ++ rs.2)

/-- C6: after each capability announcement, the attached sub-processors equal
exactly the bits of the announced bitmask; a bitmask identical to the current
attachment state performs no attach or detach; and over any announcement
sequence the final attachment state equals the bits of the last bitmask. -/
theorem handleOnCapabilities_reconcile (st : SubProcessorState)
    (caps : SeatCapabilities) (seq : List SeatCapabilities) :
    (HandleOnCapabilities st caps).1 = capsState caps
    ∧ (st = capsState caps → (HandleOnCapabilities st caps).2 = [])
    ∧ (processCapabilitySeq st (seq ++ [caps])).1 = capsState caps := by
  have base : ∀ s : SubProcessorState, ∀ c : SeatCapabilities,
      (HandleOnCapabilities s c).1 = capsState c ∧
      (s = capsState c → (HandleOnCapabilities s c).2 = []) := by
    intro s c
    obtain ⟨a, b, cc⟩ := s
    obtain ⟨d, e, f⟩ := c
    revert a b cc d e f
    decide
  refine ⟨(base st caps).1, (base st caps).2, ?_⟩
  induction seq generalizing st with
  | nil =>
    simp only [List.nil_append, processCapabilitySeq]
    exact (base st caps).1
  | cons head tail ih =>
    simp only [List.cons_append, processCapabilitySeq]
    exact ih ((HandleOnCapabilities st head).1)

/-- Witness for handleOnCapabilities_reconcile: a pointer-only attachment
state re-announced as pointer-only performs no attach or detach, and after
the sequence pointer, pointer+keyboard, keyboard the final attachment state
is keyboard only. -/
theorem handleOnCapabilities_reconcile_witness :
    (HandleOnCapabilities (SubProcessorState.mk true false false)
        (SeatCapabilities.mk true false false)).1 =
      capsState (SeatCapabilities.mk true false false)
    ∧ (HandleOnCapabilities (SubProcessorState.mk true false false)
        (SeatCapabilities.mk true false false)).2 = []
    ∧ (processCapabilitySeq (SubProcessorState.mk false false false)
        ([SeatCapabilities.mk true false false, SeatCapabilities.mk true true false] ++
          [SeatCapabilities.mk false true false])).1 =
      capsState (SeatCapabilities.mk false true false) :=
  ⟨(handleOnCapabilities_reconcile (SubProcessorState.mk true false false)
      (SeatCapabilities.mk true false false) []).1,
   (handleOnCapabilities_reconcile (SubProcessorState.mk true false false)
      (SeatCapabilities.mk true false false) []).2.1 (by decide),
   (handleOnCapabilities_reconcile (SubProcessorState.mk false false false)
      (SeatCapabilities.mk false true false)
      [SeatCapabilities.mk true false false, SeatCapabilities.mk true true false]).2.2⟩

/-- Offset between keyboard codes of Wayland (effectively evdev) and
xkb_keycode_t (SeatInputProcessor.cpp). -/
def WL_KEYBOARD_XKB_CODE_OFFSET : Nat := 8

/-- The keymap and modifier tracking object (CXkbcommonKeymap) as used by
ConvertAndSendKey, abstracted by its three lookup functions and the active
modifier mask. -/
structure KeymapModel where
  xbmcKeyForKeycode : Nat → Nat
  unicodeCodepointForKeycode : Nat → Nat
  shouldKeycodeRepeat : Nat → Bool
  activeXBMCModifiers : Nat

/-- The key fields of the XBMC_Event produced by CSeatInputProcessor::SendKey:
event type (key down or key up), scancode (unsigned char), symbolic key,
modifier mask, UTF-16 codepoint (uint16). -/
structure KeyEvent where
  isKeyDown : Bool
  scancode : Nat
  sym : Nat
  modifiers : Nat
  unicode : Nat
deriving DecidableEq

/-- Key-repeat timer commands issued by ConvertAndSendKey. -/
inductive TimerAction
  | stopSync
  | stop
  | start (delay : Int)
deriving DecidableEq

/-- CSeatInputProcessor::SendKey: builds the event; the scancode parameter is
an unsigned char, modelled by the mod-256 narrowing at the call boundary. -/
def SendKey (km : KeymapModel) (scancode : Nat) (sym : Nat) (unicodeCodepoint : Nat)
    (pressed : Bool) : KeyEvent :=
  KeyEvent.mk pressed (scancode % 256) sym km.activeXBMCModifiers unicodeCodepoint

/-- CSeatInputProcessor::ConvertAndSendKey: look up the symbolic key and
codepoint at the offset keycode, zero the codepoint when above the UTF-16
range, zero the scancode when above the unsigned char range, send the event,
and manage the key-repeat timer. -/
def ConvertAndSendKey (km : KeymapModel) (keyRepeatInterval keyRepeatDelay : Int)
    (scancode : Nat) (pressed : Bool) : KeyEvent × List TimerAction :=
  let xkbCode := scancode + WL_KEYBOARD_XKB_CODE_OFFSET
  let xbmcKey := km.xbmcKeyForKeycode xkbCode
  let utf32a := km.unicodeCodepointForKeycode xkbCode
  let utf32 := if 65535 < utf32a then 0 else utf32a
  let scancode2 := if 255 < scancode then 0 else scancode
  let event := SendKey km scancode2 xbmcKey (utf32 % 65536) pressed
  if pressed && km.shouldKeycodeRepeat xkbCode && decide (0 < keyRepeatInterval) then
    (event, [TimerAction.stopSync, TimerAction.start keyRepeatDelay])
  else
    (event, [TimerAction.stop])

/-- C8: a looked-up codepoint above 0xFFFF is reported as 0 and a scancode
above 255 is reported as 0; otherwise codepoint and scancode pass through
unchanged, with the symbolic key looked up at the scancode plus the fixed
offset of 8. -/
theorem convertAndSendKey_narrowing (km : KeymapModel)
    (keyRepeatInterval keyRepeatDelay : Int) (scancode : Nat) (pressed : Bool) :
    (65535 < km.unicodeCodepointForKeycode (scancode + WL_KEYBOARD_XKB_CODE_OFFSET) →
      ((ConvertAndSendKey km keyRepeatInterval keyRepeatDelay scancode pressed).1).unicode = 0)
    ∧ (km.unicodeCodepointForKeycode (scancode + WL_KEYBOARD_XKB_CODE_OFFSET) ≤ 65535 →
      ((ConvertAndSendKey km keyRepeatInterval keyRepeatDelay scancode pressed).1).unicode =
        km.unicodeCodepointForKeycode (scancode + WL_KEYBOARD_XKB_CODE_OFFSET))
    ∧ (255 < scancode →
      ((ConvertAndSendKey km keyRepeatInterval keyRepeatDelay scancode pressed).1).scancode = 0)
    ∧ (scancode ≤ 255 →
      ((ConvertAndSendKey km keyRepeatInterval keyRepeatDelay scancode pressed).1).scancode =
        scancode)
    ∧ ((ConvertAndSendKey km keyRepeatInterval keyRepeatDelay scancode pressed).1).sym =
      km.xbmcKeyForKeycode (scancode + WL_KEYBOARD_XKB_CODE_OFFSET) := by
  have hev : (ConvertAndSendKey km keyRepeatInterval keyRepeatDelay scancode pressed).1 =
      SendKey km (if 255 < scancode then 0 else scancode)
        (km.xbmcKeyForKeycode (scancode + WL_KEYBOARD_XKB_CODE_OFFSET))
        ((if 65535 < km.unicodeCodepointForKeycode (scancode + WL_KEYBOARD_XKB_CODE_OFFSET)
            then 0
            else km.unicodeCodepointForKeycode (scancode + WL_KEYBOARD_XKB_CODE_OFFSET)) % 65536)
        pressed := by
    cases hrep : (pressed && km.shouldKeycodeRepeat (scancode + WL_KEYBOARD_XKB_CODE_OFFSET)
        && decide (0 < keyRepeatInterval)) <;>
      simp only [ConvertAndSendKey, hrep, Bool.false_eq_true, if_false, if_true]
  rw [hev]
  unfold SendKey
  refine ⟨fun h => ?_, fun h => ?_, fun h => ?_, fun h => ?_, rfl⟩
  · simp [if_pos h]
  · rw [if_neg (show ¬ (65535 <
      km.unicodeCodepointForKeycode (scancode + WL_KEYBOARD_XKB_CODE_OFFSET)) from by omega)]
    exact Nat.mod_eq_of_lt (by omega)
  · simp [if_pos h]
  · rw [if_neg (show ¬ (255 < scancode) from by omega)]
    exact Nat.mod_eq_of_lt (by omega)

/-- Witness for convertAndSendKey_narrowing: a keymap yielding codepoint
70000 for wire scancode 300 reports codepoint 0 and scancode 0, and one
yielding codepoint 97 for scancode 30 reports both unchanged. -/
theorem convertAndSendKey_narrowing_witness :
    ((ConvertAndSendKey (KeymapModel.mk (fun _ => 1) (fun _ => 70000) (fun _ => false) 0)
        25 1000 300 true).1).unicode = 0
    ∧ ((ConvertAndSendKey (KeymapModel.mk (fun _ => 1) (fun _ => 70000) (fun _ => false) 0)
        25 1000 300 true).1).scancode = 0
    ∧ ((ConvertAndSendKey (KeymapModel.mk (fun _ => 1) (fun _ => 97) (fun _ => false) 0)
        25 1000 30 true).1).unicode = 97
    ∧ ((ConvertAndSendKey (KeymapModel.mk (fun _ => 1) (fun _ => 97) (fun _ => false) 0)
        25 1000 30 true).1).scancode = 30 :=
  ⟨(convertAndSendKey_narrowing (KeymapModel.mk (fun _ => 1) (fun _ => 70000)
      (fun _ => false) 0) 25 1000 300 true).1 (by decide),
   (convertAndSendKey_narrowing (KeymapModel.mk (fun _ => 1) (fun _ => 70000)
      (fun _ => false) 0) 25 1000 300 true).2.2.1 (by decide),
   (convertAndSendKey_narrowing (KeymapModel.mk (fun _ => 1) (fun _ => 97)
      (fun _ => false) 0) 25 1000 30 true).2.1 (by decide),
   (convertAndSendKey_narrowing (KeymapModel.mk (fun _ => 1) (fun _ => 97)
      (fun _ => false) 0) 25 1000 30 true).2.2.2.1 (by decide)⟩

/-- One active touch point of CSeatInputProcessor (the TouchPoint struct):
last event timestamp in milliseconds, assigned Kodi pointer slot, scaled
coordinates and contact size; double coordinates idealized as rationals. -/
structure TouchPoint where
  lastEventTime : Nat
  kodiPointerNumber : Int
  x : ℚ
  y : ℚ
  size : ℚ
deriving DecidableEq

/-- The m_touchPoints std::map keyed by protocol touch id, as a key-sorted
association list. -/
def touchKeys (m : List (Int × TouchPoint)) : List Int :=
  m.map (fun e => e.1)

/-- Kodi pointer slots currently used by live touch points. -/
def usedSlots (m : List (Int × TouchPoint)) : List Int :=
  m.map (fun e => e.2.kodiPointerNumber)

/-- std::map::find by touch id. -/
def touchFind (id : Int) : List (Int × TouchPoint) → Option TouchPoint
  | [] => none
  | (k, v) :: rest => if k = id then some v else touchFind id rest

/-- Key-ordered insertion backing std::map::emplace for an absent key. -/
def touchInsert (id : Int) (pt : TouchPoint) :
    List (Int × TouchPoint) → List (Int × TouchPoint)
  | [] => [(id, pt)]
  | (k, v) :: rest =>
    if id < k then (id, pt) :: (k, v) :: rest
    else (k, v) :: touchInsert id pt rest

/-- std::map::emplace: inserts only when the key is absent and returns the
entry the resulting iterator points at (the existing entry on failure). -/
def touchEmplace (m : List (Int × TouchPoint)) (id : Int) (pt : TouchPoint) :
    List (Int × TouchPoint) × TouchPoint :=
  match touchFind id m with
  | some existing => (m, existing)
  | none => (touchInsert id pt m, pt)

/-- std::map::erase of the entry found for a key. -/
def touchErase (id : Int) : List (Int × TouchPoint) → List (Int × TouchPoint)
  | [] => []
  | (k, v) :: rest => if k = id then rest else (k, v) :: touchErase id rest

/-- In-place mutation of the entry found for a key. -/
def touchUpdate (id : Int) (f : TouchPoint → TouchPoint) :
    List (Int × TouchPoint) → List (Int × TouchPoint)
  | [] => []
  | (k, v) :: rest =>
    if k = id then (k, f v) :: rest else (k, v) :: touchUpdate id f rest

/-- The slot search loop of the on_down handler: try slot numbers i, i+1 and
so on for n iterations, returning the first one not used by any live point
(the all_of check over m_touchPoints). -/
def findFreeSlotFrom (m : List (Int × TouchPoint)) : Nat → Int → Option Int
  | 0, _ => none
  | Nat.succ n, i =>
    if m.all (fun e => e.2.kodiPointerNumber != i) then some i
    else findFreeSlotFrom m n (i + 1)

/-- Lowest free Kodi pointer slot below the maximum concurrent-touch count
(the for loop over testPointer starting at 0). -/
def findFreeSlot (m : List (Int × TouchPoint)) (maxPointers : Nat) : Option Int :=
  findFreeSlotFrom m maxPointers 0

/-- TouchInput event kinds forwarded to CGenericTouchInputHandler. -/
inductive TouchInputKind
  | down
  | up
  | move
  | abort
deriving DecidableEq

/-- Calls made to the application touch input handler; times are the
millisecond timestamps multiplied by one million. -/
inductive TouchHandlerCall
  | handleTouchInput (kind : TouchInputKind) (x y : ℚ) (time : Nat) (pointer : Int) (size : ℚ)
  | updateTouchPointer (pointer : Int) (x y : ℚ) (time : Nat) (size : ℚ)
deriving DecidableEq

/-- CSeatInputProcessor::SendTouchPointEvent: for move events first refresh
every live touch point, then forward the event for the given point. -/
def SendTouchPointEvent (m : List (Int × TouchPoint)) (kind : TouchInputKind)
    (point : TouchPoint) : List TouchHandlerCall :=
  (if kind = TouchInputKind.move then
    m.map (fun e => TouchHandlerCall.updateTouchPointer e.2.kodiPointerNumber e.2.x e.2.y
      (e.2.lastEventTime * 1000000) e.2.size)
  else []) ++
  [TouchHandlerCall.handleTouchInput kind point.x point.y (point.lastEventTime * 1000000)
    point.kodiPointerNumber point.size]

/-- The on_down handler of HandleTouchCapability: find the lowest free Kodi
pointer slot; only when one exists, emplace the touch point and deliver the
down event. -/
def touchOnDown (maxPointers : Nat) (coordinateScale : ℚ) (m : List (Int × TouchPoint))
    (time : Nat) (id : Int) (x y : ℚ) :
    List (Int × TouchPoint) × List TouchHandlerCall :=
  match findFreeSlot m maxPointers with
  | none => (m, [])
  | some kodiPointer =>
    let r := touchEmplace m id
      (TouchPoint.mk time kodiPointer (x * coordinateScale) (y * coordinateScale) 0)
    (r.1, SendTouchPointEvent r.1 TouchInputKind.down r.2)

/-- The on_up handler: when the id is live, update its timestamp, deliver the
up event, then erase the point. -/
def touchOnUp (m : List (Int × TouchPoint)) (time : Nat) (id : Int) :
    List (Int × TouchPoint) × List TouchHandlerCall :=
  match touchFind id m with
  | none => (m, [])
  | some pt =>
    let f := fun (p : TouchPoint) => { p with lastEventTime := time }
    let m2 := touchUpdate id f m
    (touchErase id m2, SendTouchPointEvent m2 TouchInputKind.up (f pt))

/-- The on_motion handler: when the id is live, update coordinates and
timestamp in place and deliver the move event. -/
def touchOnMotion (coordinateScale : ℚ) (m : List (Int × TouchPoint)) (time : Nat)
    (id : Int) (x y : ℚ) : List (Int × TouchPoint) × List TouchHandlerCall :=
  match touchFind id m with
  | none => (m, [])
  | some pt =>
    let f := fun (p : TouchPoint) =>
      { p with x := x * coordinateScale, y := y * coordinateScale, lastEventTime := time }
    let m2 := touchUpdate id f m
    (m2, SendTouchPointEvent m2 TouchInputKind.move (f pt))

/-- The on_shape handler: when the id is live, store the averaged contact size
and refresh the touch pointer. -/
def touchOnShape (coordinateScale : ℚ) (m : List (Int × TouchPoint)) (id : Int)
    (major minor : ℚ) : List (Int × TouchPoint) × List TouchHandlerCall :=
  match touchFind id m with
  | none => (m, [])
  | some pt =>
    let f := fun (p : TouchPoint) => { p with size := ((major + minor) / 2) * coordinateScale }
    let m2 := touchUpdate id f m
    (m2, [TouchHandlerCall.updateTouchPointer (f pt).kodiPointerNumber (f pt).x (f pt).y
      ((f pt).lastEventTime * 1000000) (f pt).size])

/-- The on_cancel handler: abort using an arbitrary live point (begin of the
map) and clear all points at once. -/
def touchOnCancel (m : List (Int × TouchPoint)) :
    List (Int × TouchPoint) × List TouchHandlerCall :=
  match m with
  | [] => ([], [])
  | first :: _ => ([], SendTouchPointEvent m TouchInputKind.abort first.2)

/-- Wayland touch events processed by the touch sub-processor. -/
inductive TouchEvent
  | down (time : Nat) (id : Int) (x y : ℚ)
  | up (time : Nat) (id : Int)
  | motion (time : Nat) (id : Int) (x y : ℚ)
  | shape (id : Int) (major minor : ℚ)
  | cancel
deriving DecidableEq

/-- Dispatch one touch event to its handler. -/
def touchStep (maxPointers : Nat) (coordinateScale : ℚ) (m : List (Int × TouchPoint)) :
    TouchEvent → List (Int × TouchPoint) × List TouchHandlerCall
  | TouchEvent.down time id x y => touchOnDown maxPointers coordinateScale m time id x y
  | TouchEvent.up time id => touchOnUp m time id
  | TouchEvent.motion time id x y => touchOnMotion coordinateScale m time id x y
  | TouchEvent.shape id major minor => touchOnShape coordinateScale m id major minor
  | TouchEvent.cancel => touchOnCancel m

/-- Run a sequence of touch events, returning the final touch-point map. -/
def touchRun (maxPointers : Nat) (coordinateScale : ℚ) (m : List (Int × TouchPoint)) :
    List TouchEvent → List (Int × TouchPoint)
  | [] => m
  | e :: rest => touchRun maxPointers coordinateScale (touchStep maxPointers coordinateScale m e).1 rest

lemma touchFind_eq_none_iff (id : Int) (m : List (Int × TouchPoint)) :
    touchFind id m = none ↔ id ∉ touchKeys m := by
  induction m with
  | nil => simp [touchFind, touchKeys]
  | cons e rest ih =>
    obtain ⟨k, v⟩ := e
    by_cases hk : k = id
    · subst hk
      simp [touchFind, touchKeys]
    · simp only [touchFind, if_neg hk, touchKeys, List.map_cons, List.mem_cons, not_or, ih,
        touchKeys]
      constructor
      · intro h
        exact ⟨fun hc => hk hc.symm, h⟩
      · intro h
        exact h.2

lemma touchInsert_perm (id : Int) (pt : TouchPoint) (m : List (Int × TouchPoint)) :
    List.Perm (touchInsert id pt m) ((id, pt) :: m) := by
  induction m with
  | nil => simp [touchInsert]
  | cons e rest ih =>
    simp only [touchInsert]
    split
    · exact List.Perm.refl _
    · exact (List.Perm.cons e ih).trans (List.Perm.swap (id, pt) e rest)

lemma touchFind_insert_self (id : Int) (pt : TouchPoint) (m : List (Int × TouchPoint))
    (h : touchFind id m = none) :
    touchFind id (touchInsert id pt m) = some pt := by
  induction m with
  | nil => simp [touchInsert, touchFind]
  | cons e rest ih =>
    obtain ⟨k, v⟩ := e
    simp only [touchFind] at h
    by_cases hk : k = id
    · rw [if_pos hk] at h
      cases h
    · rw [if_neg hk] at h
      simp only [touchInsert]
      split
      · simp [touchFind]
      · simp only [touchFind, if_neg hk]
        exact ih h

lemma touchErase_sublist (id : Int) (m : List (Int × TouchPoint)) :
    List.Sublist (touchErase id m) m := by
  induction m with
  | nil => simp [touchErase]
  | cons e rest ih =>
    obtain ⟨k, v⟩ := e
    simp only [touchErase]
    split
    · exact List.sublist_cons_self (k, v) rest
    · exact List.Sublist.cons₂ (k, v) ih

lemma touchUpdate_usedSlots (id : Int) (f : TouchPoint → TouchPoint)
    (m : List (Int × TouchPoint))
    (hf : ∀ p, (f p).kodiPointerNumber = p.kodiPointerNumber) :
    usedSlots (touchUpdate id f m) = usedSlots m := by
  induction m with
  | nil => rfl
  | cons e rest ih =>
    obtain ⟨k, v⟩ := e
    simp only [touchUpdate]
    split
    · simp [usedSlots, hf]
    · simp only [usedSlots, List.map_cons] at ih ⊢
      rw [ih]

lemma touchUpdate_keys (id : Int) (f : TouchPoint → TouchPoint)
    (m : List (Int × TouchPoint)) :
    touchKeys (touchUpdate id f m) = touchKeys m := by
  induction m with
  | nil => rfl
  | cons e rest ih =>
    obtain ⟨k, v⟩ := e
    simp only [touchUpdate]
    split
    · simp [touchKeys]
    · simp only [touchKeys, List.map_cons] at ih ⊢
      rw [ih]

lemma touchUpdate_mem (id : Int) (f : TouchPoint → TouchPoint)
    (m : List (Int × TouchPoint)) :
    ∀ e ∈ touchUpdate id f m, e ∈ m ∨ ∃ e2 ∈ m, e = (e2.1, f e2.2) := by
  induction m with
  | nil => simp [touchUpdate]
  | cons hd rest ih =>
    obtain ⟨k, v⟩ := hd
    simp only [touchUpdate]
    split
    · intro e he
      rcases List.mem_cons.mp he with h | h
      · exact Or.inr ⟨(k, v), List.mem_cons_self _ _, h⟩
      · exact Or.inl (List.mem_cons_of_mem _ h)
    · intro e he
      rcases List.mem_cons.mp he with h | h
      · exact Or.inl (h ▸ List.mem_cons_self _ _)
      · rcases ih e h with h2 | ⟨e2, he2, hee⟩
        · exact Or.inl (List.mem_cons_of_mem _ h2)
        · exact Or.inr ⟨e2, List.mem_cons_of_mem _ he2, hee⟩

lemma touchFind_erase_self (id : Int) (m : List (Int × TouchPoint))
    (h : (touchKeys m).Nodup) : touchFind id (touchErase id m) = none := by
  induction m with
  | nil => simp [touchErase, touchFind]
  | cons e rest ih =>
    obtain ⟨k, v⟩ := e
    simp only [touchKeys, List.map_cons, List.nodup_cons] at h
    simp only [touchErase]
    split
    · rename_i hk
      subst hk
      exact (touchFind_eq_none_iff k rest).mpr h.1
    · rename_i hk
      simp only [touchFind, if_neg hk]
      exact ih h.2

lemma touchFind_erase_other (id k : Int) (m : List (Int × TouchPoint)) (hne : k ≠ id) :
    touchFind k (touchErase id m) = touchFind k m := by
  induction m with
  | nil => rfl
  | cons e rest ih =>
    obtain ⟨k2, v⟩ := e
    simp only [touchErase]
    split
    · rename_i hk2
      subst hk2
      simp only [touchFind, if_neg (fun hc : k2 = k => hne hc.symm)]
    · simp only [touchFind]
      split
      · rfl
      · exact ih

lemma touchFind_update_other (id k : Int) (f : TouchPoint → TouchPoint)
    (m : List (Int × TouchPoint)) (hne : k ≠ id) :
    touchFind k (touchUpdate id f m) = touchFind k m := by
  induction m with
  | nil => rfl
  | cons e rest ih =>
    obtain ⟨k2, v⟩ := e
    simp only [touchUpdate]
    split
    · rename_i hk2
      subst hk2
      simp only [touchFind, if_neg (fun hc : k2 = k => hne hc.symm)]
    · simp only [touchFind]
      split
      · rfl
      · exact ih

lemma slotCheck_iff (m : List (Int × TouchPoint)) (i : Int) :
    (m.all (fun e => e.2.kodiPointerNumber != i) = true) ↔ i ∉ usedSlots m := by
  constructor
  · intro h
    simp only [List.all_eq_true, bne_iff_ne, ne_eq] at h
    simp only [usedSlots, List.mem_map, not_exists]
    intro e hc
    exact h e hc.1 hc.2
  · intro h
    simp only [usedSlots, List.mem_map, not_exists] at h
    simp only [List.all_eq_true, bne_iff_ne, ne_eq]
    intro e he hfe
    exact h e ⟨he, hfe⟩

lemma findFreeSlotFrom_some_spec (m : List (Int × TouchPoint)) :
    ∀ (n : Nat) (i p : Int), findFreeSlotFrom m n i = some p →
      p ∉ usedSlots m ∧ i ≤ p ∧ p < i + n ∧
        ∀ q : Int, i ≤ q → q < p → q ∈ usedSlots m := by
  intro n
  induction n with
  | zero =>
    intro i p h
    simp [findFreeSlotFrom] at h
  | succ n ih =>
    intro i p h
    simp only [findFreeSlotFrom] at h
    split at h
    · rename_i hall
      injection h with h2
      cases h2
      refine ⟨(slotCheck_iff m i).mp hall, le_refl i, by omega,
        fun q hq1 hq2 => absurd hq2 (by omega)⟩
    · rename_i hall
      obtain ⟨h1, h2, h3, h4⟩ := ih (i + 1) p h
      refine ⟨h1, by omega, by omega, fun q hq1 hq2 => ?_⟩
      by_cases hq : q = i
      · subst hq
        by_contra hmem
        exact hall ((slotCheck_iff m q).mpr hmem)
      · exact h4 q (by omega) hq2

lemma findFreeSlotFrom_none_of_full (m : List (Int × TouchPoint)) :
    ∀ (n : Nat) (i : Int), (∀ q : Int, i ≤ q → q < i + n → q ∈ usedSlots m) →
      findFreeSlotFrom m n i = none := by
  intro n
  induction n with
  | zero => intro i _; rfl
  | succ n ih =>
    intro i hfull
    simp only [findFreeSlotFrom]
    rw [if_neg]
    · exact ih (i + 1) (fun q hq1 hq2 => hfull q (by omega) (by omega))
    · intro hall
      exact (slotCheck_iff m i).mp hall (hfull i (le_refl i) (by omega))

/-- Well-formedness of the touch-point map: live slots are pairwise distinct
and within the allowed range, and protocol ids are unique. -/
def TouchInvariant (maxPointers : Nat) (m : List (Int × TouchPoint)) : Prop :=
  (usedSlots m).Nodup ∧ (touchKeys m).Nodup ∧
    ∀ e ∈ m, 0 ≤ e.2.kodiPointerNumber ∧ e.2.kodiPointerNumber < maxPointers

lemma touchInvariant_update (maxPointers : Nat) (id : Int) (f : TouchPoint → TouchPoint)
    (m : List (Int × TouchPoint))
    (hf : ∀ p, (f p).kodiPointerNumber = p.kodiPointerNumber)
    (h : TouchInvariant maxPointers m) :
    TouchInvariant maxPointers (touchUpdate id f m) := by
  obtain ⟨hs, hk, hr⟩ := h
  refine ⟨by rw [touchUpdate_usedSlots id f m hf]; exact hs,
    by rw [touchUpdate_keys]; exact hk, fun e he => ?_⟩
  rcases touchUpdate_mem id f m e he with h2 | ⟨e2, he2, hee⟩
  · exact hr e h2
  · rw [hee]
    simpa [hf] using hr e2 he2

lemma touchInvariant_erase (maxPointers : Nat) (id : Int) (m : List (Int × TouchPoint))
    (h : TouchInvariant maxPointers m) :
    TouchInvariant maxPointers (touchErase id m) := by
  obtain ⟨hs, hk, hr⟩ := h
  have hsub := touchErase_sublist id m
  exact ⟨List.Nodup.sublist (List.Sublist.map _ hsub) hs,
    List.Nodup.sublist (List.Sublist.map _ hsub) hk,
    fun e he => hr e (List.Sublist.mem he hsub)⟩

lemma touchStep_invariant (maxPointers : Nat) (coordinateScale : ℚ)
    (m : List (Int × TouchPoint)) (ev : TouchEvent)
    (h : TouchInvariant maxPointers m) :
    TouchInvariant maxPointers (touchStep maxPointers coordinateScale m ev).1 := by
  obtain ⟨hs, hk, hr⟩ := h
  cases ev with
  | down time id x y =>
    simp only [touchStep, touchOnDown]
    cases hslot : findFreeSlot m maxPointers with
    | none => exact ⟨hs, hk, hr⟩
    | some p =>
      simp only [touchEmplace]
      cases hfind : touchFind id m with
      | some pt => exact ⟨hs, hk, hr⟩
      | none =>
        obtain ⟨hfree, hge, hlt, _⟩ := findFreeSlotFrom_some_spec m maxPointers 0 p hslot
        have hperm := touchInsert_perm id
          (TouchPoint.mk time p (x * coordinateScale) (y * coordinateScale) 0) m
        refine ⟨?_, ?_, ?_⟩
        · have : (usedSlots (touchInsert id
              (TouchPoint.mk time p (x * coordinateScale) (y * coordinateScale) 0) m)).Perm
              (p :: usedSlots m) := List.Perm.map _ hperm
          rw [List.Perm.nodup_iff this]
          exact List.nodup_cons.mpr ⟨hfree, hs⟩
        · have : (touchKeys (touchInsert id
              (TouchPoint.mk time p (x * coordinateScale) (y * coordinateScale) 0) m)).Perm
              (id :: touchKeys m) := List.Perm.map _ hperm
          rw [List.Perm.nodup_iff this]
          exact List.nodup_cons.mpr ⟨(touchFind_eq_none_iff id m).mp hfind, hk⟩
        · intro e he
          have he2 := (List.Perm.mem_iff hperm).mp he
          rcases List.mem_cons.mp he2 with h2 | h2
          · rw [h2]
            constructor
            · show (0 : Int) ≤ p
              omega
            · show p < (maxPointers : Int)
              omega
          · exact hr e h2
  | up time id =>
    simp only [touchStep, touchOnUp]
    cases hfind : touchFind id m with
    | none => exact ⟨hs, hk, hr⟩
    | some pt =>
      exact touchInvariant_erase maxPointers id _
        (touchInvariant_update maxPointers id _ m (fun p => rfl) ⟨hs, hk, hr⟩)
  | motion time id x y =>
    simp only [touchStep, touchOnMotion]
    cases hfind : touchFind id m with
    | none => exact ⟨hs, hk, hr⟩
    | some pt =>
      exact touchInvariant_update maxPointers id _ m (fun p => rfl) ⟨hs, hk, hr⟩
  | shape id major minor =>
    simp only [touchStep, touchOnShape]
    cases hfind : touchFind id m with
    | none => exact ⟨hs, hk, hr⟩
    | some pt =>
      exact touchInvariant_update maxPointers id _ m (fun p => rfl) ⟨hs, hk, hr⟩
  | cancel =>
    simp only [touchStep, touchOnCancel]
    cases m with
    | nil => exact ⟨List.nodup_nil, List.nodup_nil, by simp⟩
    | cons e rest => exact ⟨List.nodup_nil, List.nodup_nil, by simp⟩

lemma touchRun_invariant (maxPointers : Nat) (coordinateScale : ℚ)
    (seq : List TouchEvent) (m : List (Int × TouchPoint))
    (h : TouchInvariant maxPointers m) :
    TouchInvariant maxPointers (touchRun maxPointers coordinateScale m seq) := by
  induction seq generalizing m with
  | nil => exact h
  | cons e rest ih =>
    exact ih _ (touchStep_invariant maxPointers coordinateScale m e h)

/-- C7: starting from the empty touch map, after any event sequence no two
live touch points share a Kodi pointer slot and every slot is in range;
an accepted touch-down for a new protocol id is stored under the lowest slot
number not used by any live point (in particular never a live slot); a
touch-up removes exactly the point of the matching id; and a touch-cancel
removes all points at once. -/
theorem touch_slot_assignment (maxPointers : Nat) (coordinateScale : ℚ)
    (seq : List TouchEvent) (m : List (Int × TouchPoint)) (time : Nat)
    (id idUp : Int) (x y : ℚ) (p : Int)
    (hacc : findFreeSlot m maxPointers = some p)
    (hnew : touchFind id m = none)
    (hkeys : (touchKeys m).Nodup) :
    ((usedSlots (touchRun maxPointers coordinateScale [] seq)).Nodup
      ∧ ∀ e ∈ touchRun maxPointers coordinateScale [] seq,
          0 ≤ e.2.kodiPointerNumber ∧ e.2.kodiPointerNumber < maxPointers)
    ∧ ((∃ pt, touchFind id (touchOnDown maxPointers coordinateScale m time id x y).1 = some pt
          ∧ pt.kodiPointerNumber = p)
        ∧ p ∉ usedSlots m ∧ 0 ≤ p ∧ p < maxPointers
        ∧ ∀ q : Int, 0 ≤ q → q < p → q ∈ usedSlots m)
    ∧ (touchFind idUp (touchOnUp m time idUp).1 = none
        ∧ ∀ k, k ≠ idUp → touchFind k (touchOnUp m time idUp).1 = touchFind k m)
    ∧ (touchOnCancel m).1 = [] := by
  obtain ⟨hfree, hge, hlt, hleast⟩ := findFreeSlotFrom_some_spec m maxPointers 0 p hacc
  refine ⟨?_, ⟨?_, hfree, hge, by omega, fun q hq1 hq2 => hleast q hq1 hq2⟩, ⟨?_, ?_⟩, ?_⟩
  · have hinv := touchRun_invariant maxPointers coordinateScale seq []
      ⟨List.nodup_nil, List.nodup_nil, by simp⟩
    exact ⟨hinv.1, hinv.2.2⟩
  · simp only [touchOnDown, hacc, touchEmplace, hnew]
    exact ⟨_, touchFind_insert_self id _ m hnew, rfl⟩
  · simp only [touchOnUp]
    cases hfind : touchFind idUp m with
    | none => exact hfind
    | some pt =>
      have hkeys2 : (touchKeys (touchUpdate idUp
          (fun p0 => { p0 with lastEventTime := time }) m)).Nodup := by
        rw [touchUpdate_keys]
        exact hkeys
      exact touchFind_erase_self idUp _ hkeys2
  · intro k hkne
    simp only [touchOnUp]
    cases hfind : touchFind idUp m with
    | none => rfl
    | some pt =>
      rw [touchFind_erase_other idUp k _ hkne, touchFind_update_other idUp k _ m hkne]
  · simp only [touchOnCancel]
    cases m with
    | nil => rfl
    | cons e rest => rfl

/-- Witness for touch_slot_assignment: two live points on slots 0 and 1 with
ids 5 and 7; a down for the new id 9 is assigned slot 2, the lowest free one;
an up for id 5 removes exactly that point; cancel clears everything. -/
theorem touch_slot_assignment_witness :
    ((usedSlots (touchRun 10 1 []
        [TouchEvent.down 1 5 0 0, TouchEvent.down 2 7 0 0])).Nodup
      ∧ ∀ e ∈ touchRun 10 1 [] [TouchEvent.down 1 5 0 0, TouchEvent.down 2 7 0 0],
          0 ≤ e.2.kodiPointerNumber ∧ e.2.kodiPointerNumber < ((10 : Nat) : Int))
    ∧ ((∃ pt, touchFind 9 (touchOnDown 10 1
            [(5, TouchPoint.mk 1 0 0 0 0), (7, TouchPoint.mk 2 1 0 0 0)] 3 9 4 4).1 = some pt
          ∧ pt.kodiPointerNumber = 2)
        ∧ (2 : Int) ∉ usedSlots [(5, TouchPoint.mk 1 0 0 0 0), (7, TouchPoint.mk 2 1 0 0 0)]
        ∧ (0 : Int) ≤ 2 ∧ (2 : Int) < ((10 : Nat) : Int)
        ∧ ∀ q : Int, 0 ≤ q → q < 2 →
            q ∈ usedSlots [(5, TouchPoint.mk 1 0 0 0 0), (7, TouchPoint.mk 2 1 0 0 0)])
    ∧ (touchFind 5 (touchOnUp [(5, TouchPoint.mk 1 0 0 0 0), (7, TouchPoint.mk 2 1 0 0 0)]
          3 5).1 = none
        ∧ ∀ k, k ≠ (5 : Int) →
            touchFind k (touchOnUp [(5, TouchPoint.mk 1 0 0 0 0), (7, TouchPoint.mk 2 1 0 0 0)]
              3 5).1 =
            touchFind k [(5, TouchPoint.mk 1 0 0 0 0), (7, TouchPoint.mk 2 1 0 0 0)])
    ∧ (touchOnCancel [(5, TouchPoint.mk 1 0 0 0 0), (7, TouchPoint.mk 2 1 0 0 0)]).1 = [] :=
  touch_slot_assignment 10 1 [TouchEvent.down 1 5 0 0, TouchEvent.down 2 7 0 0]
    [(5, TouchPoint.mk 1 0 0 0 0), (7, TouchPoint.mk 2 1 0 0 0)] 3 9 5 4 4 2
    (by decide) (by decide) (by decide)

/-- C10: when every slot number below the maximum concurrent-touch count is
occupied by a live touch point, a touch-down is silently dropped: the map is
unchanged and nothing is delivered to the touch input handler. -/
theorem touchDown_full_drop (maxPointers : Nat) (coordinateScale : ℚ)
    (m : List (Int × TouchPoint)) (time : Nat) (id : Int) (x y : ℚ)
    (hfull : ∀ q : Nat, q < maxPointers → (q : Int) ∈ usedSlots m) :
    touchOnDown maxPointers coordinateScale m time id x y = (m, []) := by
  have hnone : findFreeSlot m maxPointers = none := by
    apply findFreeSlotFrom_none_of_full
    intro q hq1 hq2
    have hq3 : q.toNat < maxPointers := by omega
    have hq4 : ((q.toNat : Int)) = q := by omega
    rw [← hq4]
    exact hfull q.toNat hq3
  simp [touchOnDown, hnone]

/-- Witness for touchDown_full_drop: with a maximum of two concurrent touches
and both slots live, a down for the new id 9 changes nothing and delivers no
event. -/
theorem touchDown_full_drop_witness :
    touchOnDown 2 1 [(5, TouchPoint.mk 1 0 0 0 0), (7, TouchPoint.mk 2 1 0 0 0)] 3 9 4 4 =
      ([(5, TouchPoint.mk 1 0 0 0 0), (7, TouchPoint.mk 2 1 0 0 0)], []) :=
  touchDown_full_drop 2 1 [(5, TouchPoint.mk 1 0 0 0 0), (7, TouchPoint.mk 2 1 0 0 0)]
    3 9 4 4 (by decide)

/-- One display output as the orchestrator sees it: user-friendly name and the
refresh rate of its current mode in milliHertz. -/
structure OutputModel where
  name : String
  refreshMilliHz : Int
deriving DecidableEq

/-- The RESOLUTION_INFO fields used by the Wayland orchestrator. -/
structure ResolutionInfo where
  iWidth : Int
  iHeight : Int
  fRefreshRate : ℚ
  strOutput : String
  strId : String
deriving DecidableEq

/-- ID for a resolution that was set in response to configure. -/
def CONFIGURE_RES_ID : String := "configure"

/-- ID for a resolution that was set in response to an internal event. -/
def INTERNAL_RES_ID : String := "internal"

/-- Fixed collaborators of the window system during one configure cycle:
whether the decorator bound a subcompositor, whether the surface supports
set_buffer_scale, whether skin reload is inhibited, and the snapshot of
outputs the surface currently overlaps. -/
structure WSEnv where
  subcompositorBound : Bool
  canSetBufferScale : Bool
  inhibitSkinReload : Bool
  surfaceOutputs : List OutputModel
deriving DecidableEq

/-- Mutable state of CWinSystemWayland, together with the EGL attached size of
CWinSystemWaylandEGLContext and the resolution list of CDisplaySettings.
The resolution list is indexed with 0 for RES_DESKTOP, 1 for RES_WINDOW and
higher indices for custom resolutions, mirroring the RESOLUTION enum offsets
used by the loops starting at RES_DESKTOP. -/
structure WSState where
  configuredSize : CSizeInt
  surfaceSize : CSizeInt
  scale : Int
  nWidth : Int
  nHeight : Int
  eglWidth : Int
  eglHeight : Int
  fRefreshRate : ℚ
  bFullScreen : Bool
  shellSurfaceState : ShellSurfaceState
  nextShellSurfaceState : ShellSurfaceState
  currentConfigureSerial : Nat
  lastAckedSerial : Nat
  firstSerialAcked : Bool
  isInitialSetFullScreen : Bool
  currentOutput : String
  resolutions : List ResolutionInfo
deriving DecidableEq

/-- Externally visible calls of one configure-handling cycle, in program
order: settings persistence, opaque-region and buffer-scale requests, skin
reload, decorator state push, shell-surface requests, the configure
acknowledgement, and the EGL window resize. -/
inductive WSAction
  | saveWindowSize (w h : Int)
  | setOpaqueRegion (w h : Int)
  | applyBufferScale (scale : Int)
  | reloadSkin
  | decoratorSetState (w h : Int) (scale : Int) (state : ShellSurfaceState)
  | shellSetFullScreen (output : String) (refresh : ℚ)
  | shellSetWindowed
  | shellAck (serial : Nat)
  | eglResize (w h : Int)
deriving DecidableEq

/-- std::max_element over m_surfaceOutputs with the current-refresh-rate
comparer: first output with the maximal refresh rate. -/
def maxRefreshOutput (outputs : List OutputModel) : Option OutputModel :=
  outputs.foldl
    (fun acc o =>
      match acc with
      | none => some o
      | some a => if a.refreshMilliHz < o.refreshMilliHz then some o else some a)
    none

/-- CWinSystemWayland::AckConfigure: send the acknowledgement only for a new
serial or the very first call. -/
def AckConfigure (st : WSState) (serial : Nat) : WSState × List WSAction :=
  if serial ≠ st.lastAckedSerial ∨ st.firstSerialAcked = false then
    ({ st with lastAckedSerial := serial, firstSerialAcked := true },
      [WSAction.shellAck serial])
  else
    (st, [])

/-- CWinSystemWayland::SetSize: derive configured and surface size from the
given size depending on whether it includes decorations, then update the
buffer resolution (width and height times scale) and report whether it
changed. -/
def SetSize (env : WSEnv) (st : WSState) (size : CSizeInt) (state : ShellSurfaceState)
    (sizeIncludesDecoration : Bool) : Except String (Bool × WSState) := do
  let sizes ←
    (if sizeIncludesDecoration then do
      let s ← CalculateMainSurfaceSize env.subcompositorBound size state
      pure (size, s)
    else do
      let c ← CalculateFullSurfaceSize env.subcompositorBound size state
      pure (c, size))
  let newSize ← sizeMulScalar sizes.2 st.scale
  let st2 := { st with configuredSize := sizes.1, surfaceSize := sizes.2 }
  if newSize.w ≠ st2.nWidth ∨ newSize.h ≠ st2.nHeight then
    pure (true, { st2 with nWidth := newSize.w, nHeight := newSize.h })
  else
    pure (false, st2)

/-- CWindowDecorator::SetState as invoked by the orchestrator: its entry
computation of the main surface size can fail the size check; the repaint
logic itself is not modelled, only the call is recorded. -/
def decoratorSetStateCall (env : WSEnv) (size : CSizeInt) (scale : Int)
    (state : ShellSurfaceState) : Except String (List WSAction) := do
  let _ ← CalculateMainSurfaceSize env.subcompositorBound size state
  pure [WSAction.decoratorSetState size.w size.h scale state]

/-- The strId reset loop of SetFullScreen: clear the origin marker of every
resolution entry. -/
def stripResolutionIds (resolutions : List ResolutionInfo) : List ResolutionInfo :=
  resolutions.map (fun r => { r with strId := "" })

/-- The shell-surface request part of SetFullScreen: issue set-fullscreen when
going fullscreen externally or to a different output, and set-windowed when
leaving fullscreen on an external request. -/
def shellSyncRequests (st : WSState) (fullScreen wasExternal : Bool)
    (res : ResolutionInfo) : WSState × List WSAction :=
  if fullScreen then
    if wasExternal || st.currentOutput != res.strOutput then
      ({ st with currentOutput := res.strOutput },
        [WSAction.shellSetFullScreen res.strOutput res.fRefreshRate])
    else
      (st, [])
  else
    if wasExternal then
      if st.shellSurfaceState.fullscreen then (st, [WSAction.shellSetWindowed])
      else (st, [])
    else
      (st, [])

/-- The directly-set-windowed-size part of SetFullScreen for unconstrained
external requests. -/
def externalSizePart (env : WSEnv) (st : WSState) (applies : Bool)
    (res : ResolutionInfo) : Except String WSState :=
  if applies then do
    let sz ← checkSet res.iWidth res.iHeight
    let r ← SetSize env st sz st.shellSurfaceState false
    pure r.2
  else
    pure st

/-- The surface reconfiguration actions of SetFullScreen: opaque region,
buffer scale when supported, and skin reload unless inhibited. -/
def surfaceReconfigureActions (env : WSEnv) (st : WSState) : List WSAction :=
  [WSAction.setOpaqueRegion st.surfaceSize.w st.surfaceSize.h] ++
    (if env.canSetBufferScale then [WSAction.applyBufferScale st.scale] else []) ++
    (if env.inhibitSkinReload then [] else [WSAction.reloadSkin])

/-- The configure-acknowledgement tail of SetFullScreen: apply the pending
shell-surface state, push it to the decorator, and ack the pending serial. -/
def configureAckTail (env : WSEnv) (st : WSState) :
    Except String (WSState × List WSAction) := do
  let st := { st with shellSurfaceState := st.nextShellSurfaceState }
  let dacts ← decoratorSetStateCall env st.configuredSize st.scale st.shellSurfaceState
  let ackR := AckConfigure st st.currentConfigureSerial
  pure (ackR.1, dacts ++ ackR.2)

/-- CWinSystemWayland::SetFullScreen: classify the request origin from the
resolution id, issue shell fullscreen or windowed requests, apply an external
windowed size, and for requests that came from inside (or unconstrained
external ones) set the opaque region, apply the buffer scale, reload the skin
and, for configure-originated calls, push the new state to the decorator and
acknowledge the pending configure serial. -/
def SetFullScreenBase (env : WSEnv) (st : WSState) (fullScreen : Bool)
    (res : ResolutionInfo) : Except String (Bool × WSState × List WSAction) := do
  let mustHonorSize : Bool := st.shellSurfaceState.maximized ||
    st.shellSurfaceState.fullscreen || fullScreen
  let wasConfigure : Bool := res.strId == CONFIGURE_RES_ID
  let wasInternal : Bool := res.strId == INTERNAL_RES_ID
  let wasExternal : Bool := !wasConfigure && !wasInternal
  let shellPart := shellSyncRequests
    { st with resolutions := stripResolutionIds st.resolutions } fullScreen wasExternal res
  let st2 ← externalSizePart env shellPart.1 (wasExternal && !mustHonorSize) res
  if !wasExternal || !mustHonorSize then
    let acts := shellPart.2 ++ surfaceReconfigureActions env st2
    if wasConfigure then
      let tail ← configureAckTail env st2
      pure (true, { tail.1 with isInitialSetFullScreen := false }, acts ++ tail.2)
    else
      let wasInitial := st2.isInitialSetFullScreen
      pure (wasInitial, { st2 with isInitialSetFullScreen := false }, acts)
  else
    let wasInitial := st2.isInitialSetFullScreen
    pure (wasConfigure || wasInitial, { st2 with isInitialSetFullScreen := false },
      shellPart.2)

/-- CWinSystemWaylandEGLContext::SetFullScreen: run the base implementation,
then resize the EGL window when the attached size differs from the actual
surface resolution. -/
def SetFullScreenEGL (env : WSEnv) (st : WSState) (fullScreen : Bool)
    (res : ResolutionInfo) : Except String (Bool × WSState × List WSAction) := do
  let r ← SetFullScreenBase env st fullScreen res
  if r.1 = false then
    pure (false, r.2.1, r.2.2)
  else if r.2.1.eglWidth ≠ r.2.1.nWidth ∨ r.2.1.eglHeight ≠ r.2.1.nHeight then
    pure (true,
      { r.2.1 with eglWidth := r.2.1.nWidth, eglHeight := r.2.1.nHeight },
      r.2.2 ++ [WSAction.eglResize r.2.1.nWidth r.2.1.nHeight])
  else
    pure (true, r.2.1, r.2.2)

/-- Modelled from the spec: CGraphicContext::SetVideoResolution is outside the
excerpt. Per the blocking set-video-resolution entry point of the external
interfaces section and the comments in ResetSurfaceSize and ResizeWindow, it
synchronously invokes the window system SetFullScreen override with the
resolution info of the given index, windowed for the RES_WINDOW index (via
ResizeWindow, which defers to SetFullScreen) and fullscreen otherwise. -/
def SetVideoResolution (env : WSEnv) (st : WSState) (resIndex : Nat) :
    Except String (WSState × List WSAction) := do
  match st.resolutions.get? resIndex with
  | none => Except.error ("invalid resolution index")
  | some res => do
    let r ← SetFullScreenEGL env st (resIndex != 1) res
    pure (r.2.1, r.2.2)

/-- The common tail of the changed-state branches of ResetSurfaceSize: the
blocking resolution switch via SetVideoResolution, preceded in the trace by
the branch-specific actions. -/
def performResolutionChange (env : WSEnv) (st : WSState) (resIndex : Nat)
    (actsPrefix : List WSAction) : Except String (Bool × WSState × List WSAction) := do
  let r2 ← SetVideoResolution env st resIndex
  pure (true, r2.1, actsPrefix ++ r2.2)

/-- FindMatchingCustomResolution from WinSystemWayland.cpp: first resolution
index, scanning from RES_DESKTOP upward, with exactly matching size and a
refresh rate within 0.0005 (MathUtils::FloatEquals). -/
def FindMatchingCustomResolution (resolutions : List ResolutionInfo) (w h : Int)
    (refreshRate : ℚ) : Option Nat :=
  resolutions.findIdx? (fun r =>
    r.iWidth == w && r.iHeight == h &&
      decide (|r.fRefreshRate - refreshRate| ≤ 1 / 2000))

/-- Write the strId marker of one resolution entry
(GetResolutionInfo(switchToRes).strId assignment). -/
def markStrId (resolutions : List ResolutionInfo) (idx : Nat) (id : String) :
    List ResolutionInfo :=
  match resolutions.get? idx with
  | none => resolutions
  | some r => resolutions.set idx { r with strId := id }

/-- Modelled from the spec: UpdateDesktopResolution of the excluded
CWinSystemBase fills a fresh resolution entry with the given size and refresh
rate (the add-resolution-entry operation of the external interfaces section). -/
def UpdateDesktopResolution (w h : Int) (refreshRate : ℚ) : ResolutionInfo :=
  ResolutionInfo.mk w h refreshRate "" ""

/-- Modelled from the spec: SetWindowResolution of the excluded CWinSystemBase
stores the windowed size in the RES_WINDOW resolution entry (the windowed-size
persistence described in the external interfaces section). -/
def SetWindowResolution (resolutions : List ResolutionInfo) (w h : Int) :
    List ResolutionInfo :=
  match resolutions.get? 1 with
  | none => resolutions
  | some r => resolutions.set 1 { r with iWidth := w, iHeight := h }

/-- The size-adoption step at the top of ResetSurfaceSize: for a zero size
keep the configured size when fullscreen, else fall back to the stored
windowed size (which then excludes decorations); a nonzero size is adopted as
including decorations. -/
def resolveConfigureSize (st : WSState) (size0 : CSizeInt) (fullScreen : Bool) :
    Except String (CSizeInt × Bool) :=
  if size0.isZero then
    if fullScreen then
      Except.ok (st.configuredSize, true)
    else
      match st.resolutions.get? 1 with
      | none => Except.error ("invalid resolution index")
      | some windowed => do
        let sz ← checkSet windowed.iWidth windowed.iHeight
        pure (sz, false)
  else
    Except.ok (size0, true)

/-- CWinSystemWayland::ResetSurfaceSize: adopt the compositor-announced (or
fallback) size, resolve the actual refresh rate from the overlapped outputs,
return false without further action when size, scale, refresh rate and
fullscreen state are all unchanged, and otherwise pick or create the matching
resolution entry, mark its origin and perform the blocking resolution
switch. -/
def ResetSurfaceSize (env : WSEnv) (st : WSState) (size0 : CSizeInt) (scale : Int)
    (fullScreen : Bool) (fromConfigure : Bool) :
    Except String (Bool × WSState × List WSAction) := do
  let scaleChanged : Bool := scale != st.scale
  let st := { st with scale := scale }
  let sizeDec ← resolveConfigureSize st size0 fullScreen
  let r ← SetSize env st sizeDec.1 st.nextShellSurfaceState sizeDec.2
  let sizeChanged := r.1
  let st := r.2
  let refreshRate : ℚ :=
    match maxRefreshOutput env.surfaceOutputs with
    | some o => (o.refreshMilliHz : ℚ) / 1000
    | none => st.fRefreshRate
  if refreshRate = st.fRefreshRate ∧ scaleChanged = false ∧ sizeChanged = false ∧
      st.bFullScreen = fullScreen then
    pure (false, st, [])
  else
    let st := { st with fRefreshRate := refreshRate, bFullScreen := fullScreen }
    if fullScreen = false then
      let st := { st with resolutions := SetWindowResolution st.resolutions st.nWidth st.nHeight }
      let acts0 := [WSAction.saveWindowSize st.nWidth st.nHeight]
      let marked := markStrId st.resolutions 1 (if fromConfigure then CONFIGURE_RES_ID else INTERNAL_RES_ID)
      performResolutionChange env { st with resolutions := marked } 1 acts0
    else do
      let _ ← checkSet st.nWidth st.nHeight
      match FindMatchingCustomResolution st.resolutions st.nWidth st.nHeight st.fRefreshRate with
      | some idx =>
        let marked := markStrId st.resolutions idx (if fromConfigure then CONFIGURE_RES_ID else INTERNAL_RES_ID)
        performResolutionChange env { st with resolutions := marked } idx []
      | none =>
        let newRes := { UpdateDesktopResolution st.nWidth st.nHeight st.fRefreshRate with strOutput := st.currentOutput }
        let st := { st with resolutions := st.resolutions ++ [newRes] }
        let idx := st.resolutions.length - 1
        let marked := markStrId st.resolutions idx (if fromConfigure then CONFIGURE_RES_ID else INTERNAL_RES_ID)
        performResolutionChange env { st with resolutions := marked } idx []

/-- CWinSystemWayland::HandleSurfaceConfigure: record the serial and the next
shell-surface state, attempt the surface reconfiguration, and when nothing
changed apply the surface state, push it to the decorator and acknowledge the
serial immediately; when something changed, the acknowledgement already
happened inside the resolution switch. The returned Bool exposes the
ResetSurfaceSize change flag for specification purposes (the C++ handler
returns void). -/
def HandleSurfaceConfigure (env : WSEnv) (st : WSState) (serial : Nat)
    (size : CSizeInt) (state : ShellSurfaceState) :
    Except String (Bool × WSState × List WSAction) := do
  let st := { st with currentConfigureSerial := serial, nextShellSurfaceState := state }
  let r ← ResetSurfaceSize env st size st.scale state.fullscreen true
  if r.1 then
    pure (true, r.2.1, r.2.2)
  else
    let st := { r.2.1 with shellSurfaceState := (r.2.1).nextShellSurfaceState }
    let dacts ← decoratorSetStateCall env st.configuredSize st.scale st.shellSurfaceState
    let ackR := AckConfigure st serial
    pure (false, ackR.1, r.2.2 ++ dacts ++ ackR.2)

/-- Is this action the configure acknowledgement? -/
def isAck : WSAction → Bool
  | WSAction.shellAck _ => true
  | _ => false

/-- Is this action the EGL window resize? -/
def isEglResize : WSAction → Bool
  | WSAction.eglResize _ _ => true
  | _ => false

/-- Every acknowledgement in the trace is preceded by an earlier EGL resize;
the accumulator records whether a resize has been seen so far. -/
def acksAfterEglResize : List WSAction → Bool → Bool
  | [], _ => true
  | a :: rest, seen =>
    if isAck a then seen && acksAfterEglResize rest seen
    else acksAfterEglResize rest (seen || isEglResize a)


lemma setSize_effects (env : WSEnv) (st : WSState) (size : CSizeInt)
    (state : ShellSurfaceState) (inc : Bool) (b : Bool) (st2 : WSState)
    (h : SetSize env st size state inc = Except.ok (b, st2)) :
    st2.scale = st.scale ∧ st2.eglWidth = st.eglWidth ∧ st2.eglHeight = st.eglHeight
    ∧ st2.fRefreshRate = st.fRefreshRate ∧ st2.bFullScreen = st.bFullScreen
    ∧ st2.shellSurfaceState = st.shellSurfaceState
    ∧ st2.nextShellSurfaceState = st.nextShellSurfaceState
    ∧ st2.currentConfigureSerial = st.currentConfigureSerial
    ∧ st2.lastAckedSerial = st.lastAckedSerial
    ∧ st2.firstSerialAcked = st.firstSerialAcked
    ∧ st2.isInitialSetFullScreen = st.isInitialSetFullScreen
    ∧ st2.currentOutput = st.currentOutput ∧ st2.resolutions = st.resolutions
    ∧ (inc = true → st2.configuredSize = size) := by
  unfold SetSize at h
  simp only [bind, Except.bind] at h
  repeat' split at h
  all_goals first
    | exact Except.noConfusion h
    | (injection h with h1
       injection h1 with hb hst
       subst hst
       refine ⟨rfl, rfl, rfl, rfl, rfl, rfl, rfl, rfl, rfl, rfl, rfl, rfl, rfl, ?_⟩
       intro hinc
       subst hinc
       rename_i heq1 heq2 hcond
       rw [if_pos rfl] at hcond
       split at hcond
       · exact Except.noConfusion hcond
       · injection hcond with hp
         rw [← hp])

lemma ackConfigure_fresh (st : WSState) (serial : Nat)
    (h : serial ≠ st.lastAckedSerial ∨ st.firstSerialAcked = false) :
    AckConfigure st serial =
      ({ st with lastAckedSerial := serial, firstSerialAcked := true },
        [WSAction.shellAck serial]) := by
  unfold AckConfigure
  rw [if_pos h]

lemma decoratorSetStateCall_ok (env : WSEnv) (size : CSizeInt) (scale : Int)
    (state : ShellSurfaceState) (l : List WSAction)
    (h : decoratorSetStateCall env size scale state = Except.ok l) :
    l = [WSAction.decoratorSetState size.w size.h scale state] := by
  unfold decoratorSetStateCall at h
  simp only [bind, Except.bind] at h
  split at h
  · exact Except.noConfusion h
  · injection h with h1
    rw [← h1]

lemma shellSyncRequests_effects (st : WSState) (fullScreen wasExternal : Bool)
    (res : ResolutionInfo) :
    ((shellSyncRequests st fullScreen wasExternal res).1.nWidth = st.nWidth
      ∧ (shellSyncRequests st fullScreen wasExternal res).1.nHeight = st.nHeight
      ∧ (shellSyncRequests st fullScreen wasExternal res).1.eglWidth = st.eglWidth
      ∧ (shellSyncRequests st fullScreen wasExternal res).1.eglHeight = st.eglHeight
      ∧ (shellSyncRequests st fullScreen wasExternal res).1.configuredSize = st.configuredSize
      ∧ (shellSyncRequests st fullScreen wasExternal res).1.surfaceSize = st.surfaceSize
      ∧ (shellSyncRequests st fullScreen wasExternal res).1.scale = st.scale
      ∧ (shellSyncRequests st fullScreen wasExternal res).1.shellSurfaceState = st.shellSurfaceState
      ∧ (shellSyncRequests st fullScreen wasExternal res).1.nextShellSurfaceState = st.nextShellSurfaceState
      ∧ (shellSyncRequests st fullScreen wasExternal res).1.currentConfigureSerial = st.currentConfigureSerial
      ∧ (shellSyncRequests st fullScreen wasExternal res).1.lastAckedSerial = st.lastAckedSerial
      ∧ (shellSyncRequests st fullScreen wasExternal res).1.firstSerialAcked = st.firstSerialAcked
      ∧ (shellSyncRequests st fullScreen wasExternal res).1.isInitialSetFullScreen = st.isInitialSetFullScreen)
    ∧ (shellSyncRequests st fullScreen wasExternal res).2.countP isAck = 0
    ∧ (shellSyncRequests st fullScreen wasExternal res).2.countP isEglResize = 0 := by
  unfold shellSyncRequests
  repeat' split
  all_goals simp [List.countP, List.countP.go, isAck, isEglResize]

lemma surfaceReconfigureActions_counts (env : WSEnv) (st : WSState) :
    (surfaceReconfigureActions env st).countP isAck = 0
    ∧ (surfaceReconfigureActions env st).countP isEglResize = 0 := by
  unfold surfaceReconfigureActions
  cases env.canSetBufferScale <;> cases env.inhibitSkinReload <;>
    simp [List.countP, List.countP.go, isAck, isEglResize]

lemma configureAckTail_ok (env : WSEnv) (st : WSState) (stR : WSState)
    (acts : List WSAction)
    (hfresh : st.currentConfigureSerial ≠ st.lastAckedSerial ∨ st.firstSerialAcked = false)
    (h : configureAckTail env st = Except.ok (stR, acts)) :
    acts = [WSAction.decoratorSetState st.configuredSize.w st.configuredSize.h st.scale
        st.nextShellSurfaceState,
      WSAction.shellAck st.currentConfigureSerial]
    ∧ stR.nWidth = st.nWidth ∧ stR.nHeight = st.nHeight
    ∧ stR.eglWidth = st.eglWidth ∧ stR.eglHeight = st.eglHeight
    ∧ stR.configuredSize = st.configuredSize := by
  unfold configureAckTail at h
  simp only [bind, Except.bind] at h
  rw [ackConfigure_fresh { st with shellSurfaceState := st.nextShellSurfaceState }
    st.currentConfigureSerial hfresh] at h
  split at h
  · exact Except.noConfusion h
  · rename_i l heqD
    have hd := decoratorSetStateCall_ok _ _ _ _ _ heqD
    subst hd
    injection h with h1
    injection h1 with hst hacts
    subst hst
    subst hacts
    exact ⟨rfl, rfl, rfl, rfl, rfl, rfl⟩

lemma setFullScreenBase_configure (env : WSEnv) (st : WSState) (fullScreen : Bool)
    (res : ResolutionInfo) (ret : Bool) (st2 : WSState) (acts : List WSAction)
    (hres : res.strId = CONFIGURE_RES_ID)
    (hfresh : st.currentConfigureSerial ≠ st.lastAckedSerial ∨ st.firstSerialAcked = false)
    (h : SetFullScreenBase env st fullScreen res = Except.ok (ret, st2, acts)) :
    ret = true
    ∧ (∃ pre, acts = pre ++ [WSAction.shellAck st.currentConfigureSerial]
        ∧ pre.countP isAck = 0 ∧ pre.countP isEglResize = 0)
    ∧ st2.nWidth = st.nWidth ∧ st2.nHeight = st.nHeight
    ∧ st2.eglWidth = st.eglWidth ∧ st2.eglHeight = st.eglHeight
    ∧ st2.configuredSize = st.configuredSize := by
  unfold SetFullScreenBase at h
  rw [hres] at h
  have hcc : (CONFIGURE_RES_ID == CONFIGURE_RES_ID) = true := by decide
  have hci : (CONFIGURE_RES_ID == INTERNAL_RES_ID) = false := by decide
  rw [hcc, hci] at h
  simp only [Bool.not_true, Bool.not_false, Bool.false_and, Bool.and_false, Bool.true_or,
    if_true, externalSizePart, Bool.false_eq_true, if_false, bind, Except.bind, pure,
    Except.pure] at h
  split at h
  · exact Except.noConfusion h
  · rename_i v1 heqT
    injection h with h1
    injection h1 with hret h2
    injection h2 with hst hacts
    subst hst
    subst hacts
    have hSP := shellSyncRequests_effects
      { st with resolutions := stripResolutionIds st.resolutions } fullScreen false res
    obtain ⟨⟨hw1, hh1, hew1, heh1, hcs1, hss1, hsc1, hshs1, hnss1, hccs1, hlas1, hfsa1, hii1⟩,
      hca1, hce1⟩ := hSP
    have hfresh2 : (shellSyncRequests { st with resolutions := stripResolutionIds st.resolutions }
          fullScreen false res).1.currentConfigureSerial ≠
        (shellSyncRequests { st with resolutions := stripResolutionIds st.resolutions }
          fullScreen false res).1.lastAckedSerial ∨
        (shellSyncRequests { st with resolutions := stripResolutionIds st.resolutions }
          fullScreen false res).1.firstSerialAcked = false := by
      rw [hccs1, hlas1, hfsa1]
      exact hfresh
    have htail := configureAckTail_ok env _ v1.1 v1.2 hfresh2 heqT
    obtain ⟨hacts2, hnw, hnh, hew, heh, hcs⟩ := htail
    refine ⟨hret.symm, ?_, ?_, ?_, ?_, ?_, ?_⟩
    · refine ⟨(shellSyncRequests { st with resolutions := stripResolutionIds st.resolutions }
          fullScreen false res).2 ++
        surfaceReconfigureActions env
          (shellSyncRequests { st with resolutions := stripResolutionIds st.resolutions }
            fullScreen false res).1 ++
        [WSAction.decoratorSetState
          (shellSyncRequests { st with resolutions := stripResolutionIds st.resolutions }
            fullScreen false res).1.configuredSize.w
          (shellSyncRequests { st with resolutions := stripResolutionIds st.resolutions }
            fullScreen false res).1.configuredSize.h
          (shellSyncRequests { st with resolutions := stripResolutionIds st.resolutions }
            fullScreen false res).1.scale
          (shellSyncRequests { st with resolutions := stripResolutionIds st.resolutions }
            fullScreen false res).1.nextShellSurfaceState], ?_, ?_, ?_⟩
      · rw [hacts2, hccs1]
        simp [List.append_assoc]
      · simp only [List.countP_append, hca1,
          (surfaceReconfigureActions_counts env _).1, List.countP_cons, List.countP_nil,
          isAck]
        rfl
      · simp only [List.countP_append, hce1,
          (surfaceReconfigureActions_counts env _).2, List.countP_cons, List.countP_nil,
          isEglResize]
        rfl
    · show v1.1.nWidth = st.nWidth
      rw [hnw, hw1]
    · show v1.1.nHeight = st.nHeight
      rw [hnh, hh1]
    · show v1.1.eglWidth = st.eglWidth
      rw [hew, hew1]
    · show v1.1.eglHeight = st.eglHeight
      rw [heh, heh1]
    · show v1.1.configuredSize = st.configuredSize
      rw [hcs, hcs1]

lemma setFullScreenEGL_configure (env : WSEnv) (st : WSState) (fullScreen : Bool)
    (res : ResolutionInfo) (ret : Bool) (st2 : WSState) (acts : List WSAction)
    (hres : res.strId = CONFIGURE_RES_ID)
    (hfresh : st.currentConfigureSerial ≠ st.lastAckedSerial ∨ st.firstSerialAcked = false)
    (h : SetFullScreenEGL env st fullScreen res = Except.ok (ret, st2, acts)) :
    ret = true
    ∧ (∃ pre post, acts = pre ++ WSAction.shellAck st.currentConfigureSerial :: post
        ∧ pre.countP isAck = 0 ∧ pre.countP isEglResize = 0 ∧ post.countP isAck = 0)
    ∧ st2.eglWidth = st2.nWidth ∧ st2.eglHeight = st2.nHeight
    ∧ st2.configuredSize = st.configuredSize := by
  unfold SetFullScreenEGL at h
  simp only [bind, Except.bind, pure, Except.pure] at h
  split at h
  · exact Except.noConfusion h
  · rename_i r heqB
    have hbase := setFullScreenBase_configure env st fullScreen res r.1 r.2.1 r.2.2 hres
      hfresh (by exact heqB)
    obtain ⟨hret1, ⟨pre, hpre, hpca, hpce⟩, hnw, hnh, hew, heh, hcs⟩ := hbase
    rw [hret1] at h
    simp only [Bool.true_eq_false, if_false] at h
    split at h
    · rename_i hdiff
      injection h with h1
      injection h1 with hret h2
      injection h2 with hst hacts
      subst hst
      subst hacts
      refine ⟨hret.symm, ⟨pre, [WSAction.eglResize r.2.1.nWidth r.2.1.nHeight], ?_, hpca, hpce, ?_⟩,
        rfl, rfl, hcs⟩
      · rw [hpre]
        simp
      · rfl
    · rename_i hsame
      injection h with h1
      injection h1 with hret h2
      injection h2 with hst hacts
      subst hst
      subst hacts
      rw [not_or] at hsame
      refine ⟨hret.symm, ⟨pre, [], ?_, hpca, hpce, rfl⟩, ?_, ?_, hcs⟩
      · rw [hpre]
      · exact Classical.not_not.mp (fun hc => hsame.1 hc)
      · exact Classical.not_not.mp (fun hc => hsame.2 hc)

lemma setVideoResolution_configure (env : WSEnv) (st : WSState) (idx : Nat)
    (st2 : WSState) (acts : List WSAction)
    (hres : ∀ res, st.resolutions.get? idx = some res → res.strId = CONFIGURE_RES_ID)
    (hfresh : st.currentConfigureSerial ≠ st.lastAckedSerial ∨ st.firstSerialAcked = false)
    (h : SetVideoResolution env st idx = Except.ok (st2, acts)) :
    (∃ pre post, acts = pre ++ WSAction.shellAck st.currentConfigureSerial :: post
        ∧ pre.countP isAck = 0 ∧ pre.countP isEglResize = 0 ∧ post.countP isAck = 0)
    ∧ st2.eglWidth = st2.nWidth ∧ st2.eglHeight = st2.nHeight
    ∧ st2.configuredSize = st.configuredSize := by
  unfold SetVideoResolution at h
  cases hget : st.resolutions.get? idx with
  | none =>
    rw [hget] at h
    exact Except.noConfusion h
  | some res =>
    rw [hget] at h
    simp only [bind, Except.bind, pure, Except.pure] at h
    split at h
    · exact Except.noConfusion h
    · rename_i r heqE
      have hegl := setFullScreenEGL_configure env st (idx != 1) res r.1 r.2.1 r.2.2
        (hres res hget) hfresh (by exact heqE)
      obtain ⟨_, hdec, hw, hh, hcs⟩ := hegl
      injection h with h1
      injection h1 with hst hacts
      subst hst
      subst hacts
      exact ⟨hdec, hw, hh, hcs⟩

lemma markStrId_get (resolutions : List ResolutionInfo) (idx : Nat) (s : String) :
    (markStrId resolutions idx s).get? idx =
      (resolutions.get? idx).map (fun r => { r with strId := s }) := by
  unfold markStrId
  cases hg : resolutions.get? idx with
  | none =>
    simp [hg]
    exact List.get?_eq_none.mp hg
  | some r =>
    have hlt : idx < resolutions.length := by
      by_contra hc
      rw [List.get?_eq_none.mpr (by omega)] at hg
      exact Option.noConfusion hg
    simp [hg, List.get?_set_eq, hlt]

lemma markStrId_configure (resolutions : List ResolutionInfo) (idx : Nat) :
    ∀ res, (markStrId resolutions idx CONFIGURE_RES_ID).get? idx = some res →
      res.strId = CONFIGURE_RES_ID := by
  intro res hr
  rw [markStrId_get] at hr
  cases hX : resolutions.get? idx with
  | none =>
    rw [hX] at hr
    exact Option.noConfusion hr
  | some r0 =>
    rw [hX] at hr
    injection hr with hr2
    rw [← hr2]

lemma performResolutionChange_ret (env : WSEnv) (st : WSState) (idx : Nat)
    (actsPrefix : List WSAction) (r : Bool × WSState × List WSAction)
    (h : performResolutionChange env st idx actsPrefix = Except.ok r) : r.1 = true := by
  unfold performResolutionChange at h
  simp only [bind, Except.bind, pure, Except.pure] at h
  split at h
  · exact Except.noConfusion h
  · injection h with h1
    rw [← h1]

lemma resetSurfaceSize_unchanged (env : WSEnv) (st : WSState) (size0 : CSizeInt)
    (scale : Int) (fs fc : Bool) (st2 : WSState) (acts : List WSAction)
    (h : ResetSurfaceSize env st size0 scale fs fc = Except.ok (false, st2, acts)) :
    acts = [] ∧ st2.lastAckedSerial = st.lastAckedSerial
    ∧ st2.firstSerialAcked = st.firstSerialAcked
    ∧ st2.currentConfigureSerial = st.currentConfigureSerial
    ∧ st2.nextShellSurfaceState = st.nextShellSurfaceState
    ∧ st2.shellSurfaceState = st.shellSurfaceState := by
  unfold ResetSurfaceSize at h
  simp only [bind, Except.bind, pure, Except.pure] at h
  repeat' split at h
  all_goals try exact Except.noConfusion h
  all_goals try exact Bool.noConfusion (performResolutionChange_ret _ _ _ _ _ h)
  all_goals
    injection h with h1
  all_goals
    injection h1 with hb h2
  all_goals
    injection h2 with hst hacts
  all_goals
    subst hst
  all_goals
    subst hacts
  all_goals
    rename_i hSS hcond
  all_goals
    refine ⟨rfl, ?_, ?_, ?_, ?_, ?_⟩
  all_goals
    first
      | exact (setSize_effects _ _ _ _ _ _ _ hSS).2.2.2.2.2.2.2.2.1
      | exact (setSize_effects _ _ _ _ _ _ _ hSS).2.2.2.2.2.2.2.2.2.1
      | exact (setSize_effects _ _ _ _ _ _ _ hSS).2.2.2.2.2.2.2.1
      | exact (setSize_effects _ _ _ _ _ _ _ hSS).2.2.2.2.2.2.1
      | exact (setSize_effects _ _ _ _ _ _ _ hSS).2.2.2.2.2.1

lemma resolveConfigureSize_nonzero (st : WSState) (size0 : CSizeInt) (fs : Bool)
    (v : CSizeInt × Bool) (hnz : size0.isZero = false)
    (h : resolveConfigureSize st size0 fs = Except.ok v) : v = (size0, true) := by
  unfold resolveConfigureSize at h
  rw [hnz] at h
  simp only [Bool.false_eq_true, if_false] at h
  injection h with h1
  rw [← h1]

lemma performResolutionChange_spec (env : WSEnv) (st : WSState) (idx : Nat)
    (actsPrefix : List WSAction) (serial lastSer : Nat) (firstAck : Bool)
    (cfg : CSizeInt) (b : Bool) (st2 : WSState) (acts : List WSAction)
    (hres : ∀ res, st.resolutions.get? idx = some res → res.strId = CONFIGURE_RES_ID)
    (hser : st.currentConfigureSerial = serial)
    (hla : st.lastAckedSerial = lastSer)
    (hfa : st.firstSerialAcked = firstAck)
    (hfresh : serial ≠ lastSer ∨ firstAck = false)
    (hcfg : st.configuredSize = cfg)
    (hpa : actsPrefix.countP isAck = 0)
    (hpe : actsPrefix.countP isEglResize = 0)
    (h : performResolutionChange env st idx actsPrefix = Except.ok (b, st2, acts)) :
    b = true
    ∧ (∃ pre post, acts = pre ++ WSAction.shellAck serial :: post
        ∧ pre.countP isAck = 0 ∧ pre.countP isEglResize = 0 ∧ post.countP isAck = 0)
    ∧ st2.eglWidth = st2.nWidth ∧ st2.eglHeight = st2.nHeight
    ∧ st2.configuredSize = cfg := by
  have hfr : st.currentConfigureSerial ≠ st.lastAckedSerial ∨ st.firstSerialAcked = false := by
    rw [hser, hla, hfa]
    exact hfresh
  unfold performResolutionChange at h
  simp only [bind, Except.bind, pure, Except.pure] at h
  split at h
  · exact Except.noConfusion h
  · rename_i r2 heqV
    have hsvr := setVideoResolution_configure env st idx r2.1 r2.2 hres hfr
      (by exact heqV)
    obtain ⟨⟨pre, post, hdec, hca, hce, hpo⟩, hw, hh, hcs⟩ := hsvr
    injection h with h1
    injection h1 with hb h2
    injection h2 with hst hacts
    subst hst
    subst hacts
    refine ⟨hb.symm, ⟨actsPrefix ++ pre, post, ?_, ?_, ?_, hpo⟩, hw, hh, ?_⟩
    · rw [hdec, hser]
      simp
    · rw [List.countP_append, hpa, hca]
    · rw [List.countP_append, hpe, hce]
    · rw [hcs, hcfg]

lemma resetSurfaceSize_changed (env : WSEnv) (st : WSState) (size0 : CSizeInt)
    (scale : Int) (fs : Bool) (st2 : WSState) (acts : List WSAction)
    (hfresh : st.currentConfigureSerial ≠ st.lastAckedSerial ∨ st.firstSerialAcked = false)
    (h : ResetSurfaceSize env st size0 scale fs true = Except.ok (true, st2, acts)) :
    (∃ pre post, acts = pre ++ WSAction.shellAck st.currentConfigureSerial :: post
        ∧ pre.countP isAck = 0 ∧ pre.countP isEglResize = 0 ∧ post.countP isAck = 0)
    ∧ st2.eglWidth = st2.nWidth ∧ st2.eglHeight = st2.nHeight
    ∧ (size0.isZero = false → st2.configuredSize = size0) := by
  unfold ResetSurfaceSize at h
  simp only [bind, Except.bind, pure, Except.pure, if_true] at h
  repeat' split at h
  all_goals try exact Except.noConfusion h
  all_goals try (injection h with h1; injection h1 with hb h2; exact absurd hb (by decide))
  all_goals
    have hE := setSize_effects _ _ _ _ _ _ _ (by assumption)
  all_goals
    have hP := performResolutionChange_spec _ _ _ _ st.currentConfigureSerial
      st.lastAckedSerial st.firstSerialAcked _ _ _ _
      (fun res hr => markStrId_configure _ _ res hr)
      (by exact hE.2.2.2.2.2.2.2.1)
      (by exact hE.2.2.2.2.2.2.2.2.1)
      (by exact hE.2.2.2.2.2.2.2.2.2.1)
      hfresh
      (by exact rfl)
      (by rfl) (by rfl) h
  all_goals
    refine ⟨hP.2.1, hP.2.2.1, hP.2.2.2.1, fun hnz => ?_⟩
  all_goals
    have hv := resolveConfigureSize_nonzero _ _ _ _ hnz (by assumption)
  all_goals
    have hc2 := hE.2.2.2.2.2.2.2.2.2.2.2.2.2
  all_goals
    rw [hv] at hc2
  all_goals
    exact hP.2.2.2.2.trans (hc2 rfl)

lemma countP_zero_filter (p : WSAction → Bool) (l : List WSAction)
    (h : l.countP p = 0) : l.filter p = [] := by
  apply List.length_eq_zero.mp
  rw [← List.countP_eq_length_filter]
  exact h

lemma takeWhile_prefix_stop (p : WSAction → Bool) (pre : List WSAction) (x : WSAction)
    (post : List WSAction) (hpre : ∀ a ∈ pre, p a = true) (hx : p x = false) :
    (pre ++ x :: post).takeWhile p = pre := by
  induction pre with
  | nil =>
    simp [List.takeWhile_cons, hx]
  | cons a rest ih =>
    have ha := hpre a (List.mem_cons_self a rest)
    simp only [List.cons_append, List.takeWhile_cons, ha, if_true]
    rw [ih (fun b hb => hpre b (List.mem_cons_of_mem a hb))]

/-- C1, amended. In CWinSystemWayland::HandleSurfaceConfigure a configure event
carrying a fresh serial leads to exactly one acknowledgement of exactly that
serial, whatever path the handler takes. If nothing changed, the emitted
requests are exactly the decorator state update followed by the ack. If the
size or state did change, the acknowledgement is deferred until the
orchestrator has applied the new size to its own state and performed the
resolution switch: after the handler the EGL-attached size equals the new
surface size, and a non-zero configure size has been stored as the configured
size. The spec's ordering sentence is corrected, not confirmed: the ack is NOT
issued after the EGL buffer resize but before it; no EGL resize precedes the
ack in the trace (the prefix before the first ack contains none), and the
resize request that does occur is emitted after the ack, before the handler
returns. -/
theorem handleSurfaceConfigure_ack_policy (env : WSEnv) (st : WSState) (serial : Nat)
    (size : CSizeInt) (cstate : ShellSurfaceState) (changed : Bool) (st2 : WSState)
    (tr : List WSAction)
    (hfresh : serial ≠ st.lastAckedSerial ∨ st.firstSerialAcked = false)
    (hrun : HandleSurfaceConfigure env st serial size cstate =
      Except.ok (changed, st2, tr)) :
    tr.filter isAck = [WSAction.shellAck serial]
    ∧ (changed = false →
        tr = [WSAction.decoratorSetState st2.configuredSize.w st2.configuredSize.h
            st2.scale cstate,
          WSAction.shellAck serial])
    ∧ (changed = true →
        (tr.takeWhile (fun a => !(isAck a))).countP isEglResize = 0
        ∧ st2.eglWidth = st2.nWidth ∧ st2.eglHeight = st2.nHeight
        ∧ (size.isZero = false → st2.configuredSize = size)) := by
  unfold HandleSurfaceConfigure at hrun
  simp only [bind, Except.bind, pure, Except.pure] at hrun
  split at hrun
  · exact Except.noConfusion hrun
  · rename_i r heqR
    by_cases hr1 : r.1 = true
    · rw [if_pos hr1] at hrun
      injection hrun with h1
      injection h1 with hch h2
      injection h2 with hst hacts
      subst hch
      subst hst
      subst hacts
      have heqR2 : ResetSurfaceSize env
          { st with currentConfigureSerial := serial, nextShellSurfaceState := cstate }
          size st.scale cstate.fullscreen true = Except.ok (true, r.2.1, r.2.2) := by
        rw [heqR, ← hr1]
      have hC := resetSurfaceSize_changed env
        { st with currentConfigureSerial := serial, nextShellSurfaceState := cstate }
        size st.scale cstate.fullscreen r.2.1 r.2.2 (by exact hfresh) heqR2
      obtain ⟨⟨pre, post, hdec, hca, hce, hpo⟩, hw, hh, hcfg⟩ := hC
      have hpre2 : ∀ a ∈ pre, (fun a => !(isAck a)) a = true := by
        intro a ha
        have h2 := (List.countP_eq_zero.mp hca) a ha
        simp only [Bool.not_eq_true] at h2
        simp [h2]
      refine ⟨?_, fun hcf => Bool.noConfusion hcf, fun _ => ⟨?_, hw, hh, hcfg⟩⟩
      · rw [hdec]
        rw [List.filter_append, countP_zero_filter _ _ hca, List.filter_cons]
        simp only [isAck, if_true, List.nil_append]
        rw [countP_zero_filter _ _ hpo]
      · rw [hdec, takeWhile_prefix_stop _ pre _ post hpre2 (by rfl)]
        exact hce
    · have hr0 : r.1 = false := by
        cases hb : r.1
        · rfl
        · exact absurd hb hr1
      rw [if_neg hr1] at hrun
      try simp only [bind, Except.bind, pure, Except.pure] at hrun
      have heqR2 : ResetSurfaceSize env
          { st with currentConfigureSerial := serial, nextShellSurfaceState := cstate }
          size st.scale cstate.fullscreen true = Except.ok (false, r.2.1, r.2.2) := by
        rw [heqR, ← hr0]
      have hU := resetSurfaceSize_unchanged env
        { st with currentConfigureSerial := serial, nextShellSurfaceState := cstate }
        size st.scale cstate.fullscreen true r.2.1 r.2.2 heqR2
      obtain ⟨hacts0, hla, hfa, hccs, hnss, hsss⟩ := hU
      split at hrun
      · exact Except.noConfusion hrun
      · rename_i v heqD
        have hv := decoratorSetStateCall_ok _ _ _ _ _ heqD
        subst hv
        have hfr2 : serial ≠ r.2.1.lastAckedSerial ∨ r.2.1.firstSerialAcked = false := by
          rw [hla, hfa]
          exact hfresh
        rw [ackConfigure_fresh
          { r.2.1 with shellSurfaceState := (r.2.1).nextShellSurfaceState } serial
          (by exact hfr2)] at hrun
        injection hrun with h1
        injection h1 with hch h2
        injection h2 with hst hacts
        subst hch
        subst hst
        subst hacts
        rw [hacts0]
        refine ⟨?_, fun _ => ?_, fun hct => Bool.noConfusion hct⟩
        · simp [isAck]
        · rw [hnss]
          simp

/-- Modelled from the source scenario: a single 60 Hz output named out1,
no subcompositor bound, buffer scale settable, skin reload inhibited. -/
def envConfigureExample : WSEnv := WSEnv.mk false true true [OutputModel.mk "out1" 60000]

/-- Orchestrator state before the configure: fullscreen 800 by 600 at 60 Hz on
out1, serial 4 configured and acked, EGL buffers attached at 800 by 600. -/
def stConfigureExample : WSState := WSState.mk (CSizeInt.mk 800 600) (CSizeInt.mk 800 600)
  1 800 600 800 600 60 true (ShellSurfaceState.mk false true false true)
  (ShellSurfaceState.mk false true false true) 4 4 true false "out1"
  [ResolutionInfo.mk 800 600 60 "out1" "", ResolutionInfo.mk 800 600 0 "" "",
   ResolutionInfo.mk 800 600 60 "out1" ""]

/-- State after the size-changing configure to 1024 by 768 with serial 5:
the new size is applied everywhere and a matching custom resolution is added. -/
def stAfterResizeExample : WSState := WSState.mk (CSizeInt.mk 1024 768) (CSizeInt.mk 1024 768)
  1 1024 768 1024 768 60 true (ShellSurfaceState.mk false true false true)
  (ShellSurfaceState.mk false true false true) 5 5 true false "out1"
  [ResolutionInfo.mk 800 600 60 "out1" "", ResolutionInfo.mk 800 600 0 "" "",
   ResolutionInfo.mk 800 600 60 "out1" "", ResolutionInfo.mk 1024 768 60 "out1" ""]

/-- State after the size-preserving configure with serial 6: only the
serial bookkeeping advances. -/
def stAfterConfigureExample : WSState := WSState.mk (CSizeInt.mk 800 600) (CSizeInt.mk 800 600)
  1 800 600 800 600 60 true (ShellSurfaceState.mk false true false true)
  (ShellSurfaceState.mk false true false true) 6 6 true false "out1"
  [ResolutionInfo.mk 800 600 60 "out1" "", ResolutionInfo.mk 800 600 0 "" "",
   ResolutionInfo.mk 800 600 60 "out1" ""]

/-- Trace emitted by the size-preserving configure with serial 6. -/
def trConfigureExample : List WSAction :=
  [WSAction.decoratorSetState 800 600 1 (ShellSurfaceState.mk false true false true),
   WSAction.shellAck 6]

set_option maxRecDepth 4000 in
/-- C1 counterexample. A configure event that shrinks or grows the surface
(here 800 by 600 to 1024 by 768, serial 5) does change the state, and the
handler emits exactly one acknowledgement and exactly one EGL buffer resize;
but in the emitted request order the acknowledgement of serial 5 comes BEFORE
the resize of the EGL buffer layer, not after it, so the spec sentence that the
configure is acknowledged only after the resize has been applied through the
buffer layer is wrong about the order of those two effects: the full trace is
set-opaque-region, apply-buffer-scale, decorator-set-state, ack, EGL resize,
and the predicate requiring every ack to be preceded by an EGL resize
evaluates to false on it. -/
theorem handleSurfaceConfigure_ack_before_egl_resize :
    HandleSurfaceConfigure envConfigureExample stConfigureExample 5 (CSizeInt.mk 1024 768)
        (ShellSurfaceState.mk false true false true) =
      Except.ok (true, stAfterResizeExample,
        [WSAction.setOpaqueRegion 1024 768, WSAction.applyBufferScale 1,
         WSAction.decoratorSetState 1024 768 1 (ShellSurfaceState.mk false true false true),
         WSAction.shellAck 5, WSAction.eglResize 1024 768])
    ∧ acksAfterEglResize
        [WSAction.setOpaqueRegion 1024 768, WSAction.applyBufferScale 1,
         WSAction.decoratorSetState 1024 768 1 (ShellSurfaceState.mk false true false true),
         WSAction.shellAck 5, WSAction.eglResize 1024 768] false = false := by
  with_unfolding_all decide

set_option maxRecDepth 4000 in
/-- Witness for the amended C1 theorem at the size-preserving configure with
serial 6 on the concrete 800 by 600 fullscreen state. -/
theorem handleSurfaceConfigure_ack_policy_witness :
    trConfigureExample.filter isAck = [WSAction.shellAck 6]
    ∧ (false = false →
        trConfigureExample =
          [WSAction.decoratorSetState stAfterConfigureExample.configuredSize.w
              stAfterConfigureExample.configuredSize.h stAfterConfigureExample.scale
              (ShellSurfaceState.mk false true false true),
            WSAction.shellAck 6])
    ∧ (false = true →
        (trConfigureExample.takeWhile (fun a => !(isAck a))).countP isEglResize = 0
        ∧ stAfterConfigureExample.eglWidth = stAfterConfigureExample.nWidth
        ∧ stAfterConfigureExample.eglHeight = stAfterConfigureExample.nHeight
        ∧ ((CSizeInt.mk 800 600).isZero = false →
            stAfterConfigureExample.configuredSize = CSizeInt.mk 800 600)) :=
  handleSurfaceConfigure_ack_policy envConfigureExample stConfigureExample 6
    (CSizeInt.mk 800 600) (ShellSurfaceState.mk false true false true) false
    stAfterConfigureExample trConfigureExample (by decide) (by with_unfolding_all decide)

end XbmcWayland
